import Mathlib

/-!
SawitPro user service: the authentication core.

A shallow embedding of the Go sources of the user service

* `internal/auth.go`   (token signer and verifier, credential hasher),
* `middleware/auth.go` (bearer gate),
* `cmd/main.go`        (the routing wrapper around the gate),
* `repository/implementations.go` (user lookups),
* `internal/error.go`, `handler/server.go` (error kinds and their status),
* `handler/auth_handler.go`, `handler/user_handler.go` (registration, login and
  the validation of requests),

followed by the theorems that settle the claims of the specification.

Conventions.

* A Go `string` is its sequence of bytes (`GoString`); `go "..."` is a string
  literal of the source.
* A Go result `(v, err)` of a function of the repository is a pair whose second
  component is `none` for a nil error.
* The packages the repository imports (`golang-jwt/jwt`, `x/crypto/bcrypt`,
  `database/sql`, `os`, `crypto/rand`, the clock) are parameters.  What is
  assumed of them is written as an explicit contract (`jwt.Lib.RoundTrip`,
  `jwt.Lib.ValidOnSuccess`, `bcrypt.Lib.AcceptsGenerated`,
  `bcrypt.Lib.ReadsAtMost72`, `bcrypt.Lib.RejectsTooLong`) and appears as a
  hypothesis of every theorem that relies on it.  `bcrypt.Lib.RejectsOtherInputs`
  is an idealisation, not a contract, and is assumed only where a statement
  says so.
* A handler is a function of the context and of the rest of the world; that a
  handler is not invoked reads: the outcome is the same for every handler and
  the context and the world come back unchanged.
* The collaborators of `Register` and `Login` (repository, signer, comparer,
  hasher) are steps on the world.  `Server.traced` and `tracedHash` keep a log
  of the calls next to the world, so that which calls a handler makes, with
  which arguments and in which order, is the log after its run.
* `handler/auth_handler.go` calls `internal.HashPassword` with the password
  alone and `ComparePassword` with the password and the hash, as its tests do,
  while `internal/auth.go` declares both with one more parameter, the salt.
  The handlers are modelled as written, against a hasher and a comparer of the
  arity they use; the functions of `internal/auth.go` are modelled as declared.
-/

namespace SawitPro

/-! ## Go values -/

/-- A Go string: an immutable sequence of bytes. -/
abbrev GoString := List UInt8

/-- The bytes (UTF-8) of a string literal of the source. -/
def go (s : String) : GoString := s.toUTF8.data.toList

/-- The error values that flow through the service: the six kinds of
`internal/error.go`, `*echo.HTTPError`, and every other error (`errors.New`,
`fmt.Errorf`, errors of libraries), which carries only its text. -/
inductive GoError where
  | BadRequestError (Message : GoString)
  | InternalServerError (Message : GoString)
  | ForbiddenError (Message : GoString)
  | ConflictError (Message : GoString)
  | NotFoundError (Message : GoString)
  | UnauthorizedError (Message : GoString)
  | HTTPError (Code : Int) (Message : GoString)
  | plain (text : GoString)
  deriving DecidableEq, Repr

/-- The values held in an `interface{}` slot of the context store. -/
inductive Any where
  | int (n : Int)
  | string (s : GoString)
  deriving DecidableEq, Repr

namespace http

def StatusOK : Int := 200
def StatusCreated : Int := 201
def StatusBadRequest : Int := 400
def StatusUnauthorized : Int := 401
def StatusForbidden : Int := 403
def StatusNotFound : Int := 404
def StatusConflict : Int := 409
def StatusInternalServerError : Int := 500

/-- The type `http.Header`: canonical key to the values of that key. -/
abbrev Header := List (GoString × List GoString)

/-- The method `Header.Get`: the first value of the key, `""` when the key has
no value. -/
def Header.Get (h : Header) (key : GoString) : GoString :=
  match h.lookup key with
  | some (v :: _) => v
  | _ => []

/-- The part of `*http.Request` the service reads. -/
structure Request where
  Header : Header
  Path : GoString
  deriving DecidableEq, Repr

end http

namespace strings

/-- The function `strings.HasPrefix(s, pre)`:
`len(s) >= len(pre) && s[0:len(pre)] == pre`. -/
def HasPrefix (s pre : GoString) : Bool :=
  decide (s.length ≥ pre.length) && (s.take pre.length == pre)

/-- The scan of `strings.Split` for a non-empty separator: `skip` bytes of a
separator just matched are still to be passed over, `acc` holds the bytes of the
current piece, last byte first. -/
def splitFrom (sep : GoString) : Nat → GoString → GoString → List GoString
  | _, [], acc => [acc.reverse]
  | skip + 1, _ :: rest, acc => splitFrom sep skip rest acc
  | 0, b :: rest, acc =>
    if sep.isPrefixOf (b :: rest) then
      acc.reverse :: splitFrom sep (sep.length - 1) rest []
    else
      splitFrom sep 0 rest (b :: acc)

/-- The function `strings.Split(s, sep)` for a non-empty `sep` (the service only
splits on `" "`): the pieces of `s` between the successive, non-overlapping
occurrences of `sep`, found left to right; `Split("", sep)` is `[""]`.  The
empty separator, which explodes `s` into its UTF-8 sequences, is outside this
model. -/
def Split (s sep : GoString) : List GoString :=
  splitFrom sep 0 s []

end strings

namespace hex

/-- The table `hextable` of `encoding/hex`. -/
def hextable : GoString := go "0123456789abcdef"

/-- The function `hex.EncodeToString`: two lower-case digits per byte. -/
def EncodeToString (src : List UInt8) : GoString :=
  src.flatMap fun b =>
    [hextable.getD (b.toNat / 16) 0, hextable.getD (b.toNat % 16) 0]

end hex

namespace time

/-- An instant of `time.Time`, as nanoseconds since the Unix epoch. -/
abbrev Time := Int

/-- A `time.Duration`, in nanoseconds. -/
abbrev Duration := Int

def Second : Duration := 1000000000
def Hour : Duration := 3600 * Second

/-- The method `Time.Add`. -/
def Time.Add (t : Time) (d : Duration) : Time := t + d

/-- The method `Time.Unix`: whole seconds since the epoch, rounded down. -/
def Time.Unix (t : Time) : Int := t / Second

end time

namespace rsa

/-- The type `rsa.PublicKey`. -/
structure PublicKey where
  N : Nat
  E : Int
  deriving DecidableEq, Repr

/-- The type `rsa.PrivateKey`; it embeds its public key. -/
structure PrivateKey where
  PublicKey : PublicKey
  D : Nat
  Primes : List Nat
  deriving DecidableEq, Repr

end rsa

namespace entities

def PhoneNumberMinLength : Nat := 10
def PhoneNumberMaxLength : Nat := 13
def FullNameMinLength : Nat := 3
def FullNameMaxLength : Nat := 60
def PasswordMinLength : Nat := 6
def PasswordMaxLength : Nat := 64
def PhoneNumberPrefix : GoString := go "+62"

/-- The type `entities.User`. -/
structure User where
  ID : Int := 0
  FullName : GoString := []
  PhoneNumber : GoString := []
  Password : GoString := []
  deriving DecidableEq, Repr

end entities

/-- The method `Error()` of an error value (`*echo.HTTPError` prints as
`code=%d, message=%v`). -/
def GoError.Error : GoError → GoString
  | .BadRequestError m => m
  | .InternalServerError m => m
  | .ForbiddenError m => m
  | .ConflictError m => m
  | .NotFoundError m => m
  | .UnauthorizedError m => m
  | .HTTPError code m => go "code=" ++ go (toString code) ++ go ", message=" ++ m
  | .plain text => text

/-- The method `HTTPStatusCode()` of `internal/error.go`, for the error values
that have it. -/
def GoError.HTTPStatusCode : GoError → Option Int
  | .BadRequestError _ => some http.StatusBadRequest
  | .InternalServerError _ => some http.StatusInternalServerError
  | .ForbiddenError _ => some http.StatusForbidden
  | .ConflictError _ => some http.StatusConflict
  | .NotFoundError _ => some http.StatusNotFound
  | .UnauthorizedError _ => some http.StatusUnauthorized
  | .HTTPError _ _ => none
  | .plain _ => none

namespace jwt

/-- The type `jwt.StandardClaims`. -/
structure StandardClaims where
  Audience : GoString := []
  ExpiresAt : Int := 0
  Id : GoString := []
  IssuedAt : Int := 0
  Issuer : GoString := []
  NotBefore : Int := 0
  Subject : GoString := []
  deriving DecidableEq, Repr

/-- The time checks of `StandardClaims.Valid` at the Unix second `now`: each of
`exp`, `iat`, `nbf` is optional and skipped when zero; a token is expired once
`now > exp`. -/
def StandardClaims.Valid (c : StandardClaims) (now : Int) : Bool :=
  (c.ExpiresAt == 0 || decide (now ≤ c.ExpiresAt)) &&
  (c.IssuedAt == 0 || decide (now ≥ c.IssuedAt)) &&
  (c.NotBefore == 0 || decide (now ≥ c.NotBefore))

end jwt

namespace internal

/-- The type `JWTClaim` of `internal/auth.go`: the signer (it holds the private
key) and, with the embedded standard claims, the payload of a token. -/
structure JWTClaim where
  UserID : Int := 0
  PrivateKey : Option rsa.PrivateKey := none
  StandardClaims : jwt.StandardClaims := {}
  deriving DecidableEq, Repr

end internal

namespace jwt

/-- What `VerifyJWT` reads of a parsed `*jwt.Token`: `Claims` is `some c` when
the dynamic type of `token.Claims` is `*JWTClaim`, and `Valid` is the flag. -/
structure Token where
  Claims : Option internal.JWTClaim
  Valid : Bool
  deriving DecidableEq, Repr

/-- The functions of `github.com/golang-jwt/jwt` the service calls.
`SignedString claims key` is `jwt.NewWithClaims(jwt.SigningMethodRS256,
claims).SignedString(key)`; `ParseWithClaims tokenString publicKey now` is
`jwt.ParseWithClaims(tokenString, &JWTClaim{}, keyFunc)` with a `keyFunc` that
returns `publicKey`, run when the clock reads `now`. -/
structure Lib where
  SignedString : internal.JWTClaim → Option rsa.PrivateKey → Except GoError GoString
  ParseWithClaims : GoString → Option rsa.PublicKey → time.Time → Except GoError Token
  ParseRSAPublicKeyFromPEM : GoString → Except GoError rsa.PublicKey
  ParseRSAPrivateKeyFromPEM : GoString → Except GoError rsa.PrivateKey

/-- The contract of the token library that the round trip relies on: a token
signed with a private key parses under the public key of that key, at any
instant at which the time checks of its claims pass, to a valid token whose
claims carry the same user id and the same three timestamps. -/
def Lib.RoundTrip (lib : Lib) : Prop :=
  ∀ (claims : internal.JWTClaim) (key : rsa.PrivateKey) (tokenString : GoString)
    (now : time.Time),
    lib.SignedString claims (some key) = .ok tokenString →
    claims.StandardClaims.Valid (time.Time.Unix now) = true →
    ∃ c : internal.JWTClaim,
      lib.ParseWithClaims tokenString (some key.PublicKey) now = .ok ⟨some c, true⟩ ∧
      c.UserID = claims.UserID ∧
      c.StandardClaims.ExpiresAt = claims.StandardClaims.ExpiresAt ∧
      c.StandardClaims.IssuedAt = claims.StandardClaims.IssuedAt ∧
      c.StandardClaims.NotBefore = claims.StandardClaims.NotBefore

end jwt

namespace bcrypt

def DefaultCost : Int := 10

/-- The longest password `GenerateFromPassword` accepts, and the number of key
bytes the Blowfish key schedule of bcrypt reads. -/
def maxPasswordLength : Nat := 72

def ErrMismatchedHashAndPassword : GoError :=
  .plain (go "crypto/bcrypt: hashedPassword is not the hash of the given password")

def ErrPasswordTooLong : GoError :=
  .plain (go "bcrypt: password length exceeds 72 bytes")

/-- The functions of `golang.org/x/crypto/bcrypt` the service calls.
`GenerateFromPassword password cost entropy` hashes with the 16 salt bytes
`entropy` that the library draws from `crypto/rand`. -/
structure Lib where
  GenerateFromPassword : GoString → Int → GoString → Except GoError GoString
  CompareHashAndPassword : GoString → GoString → Option GoError

/-- Contract of bcrypt: a hash compares successfully with the password it was
generated from. -/
def Lib.AcceptsGenerated (lib : Lib) : Prop :=
  ∀ (password : GoString) (cost : Int) (entropy hashed : GoString),
    lib.GenerateFromPassword password cost entropy = .ok hashed →
    lib.CompareHashAndPassword hashed password = none

/-- Contract of bcrypt: the comparison reads at most the first 72 bytes of the
password (`CompareHashAndPassword` has no length check and the key schedule
stops after 72 bytes). -/
def Lib.ReadsAtMost72 (lib : Lib) : Prop :=
  ∀ (hashed password : GoString),
    lib.CompareHashAndPassword hashed password =
      lib.CompareHashAndPassword hashed (password.take maxPasswordLength)

end bcrypt

namespace internal

/-- The interface `JWTSigner`. -/
structure JWTSigner where
  SignJWT : entities.User → GoString × Option GoError
  VerifyJWT : GoString → Option rsa.PublicKey → JWTClaim × Option GoError

/-- The function `NewJWT`: read and parse the private key. -/
def NewJWT (ReadFile : GoString → Except GoError GoString) (lib : jwt.Lib)
    (privateKeyPath : GoString) : Option JWTClaim × Option GoError :=
  match ReadFile privateKeyPath with
  | .error err => (none, some err)
  | .ok privateKeyBytes =>
    match lib.ParseRSAPrivateKeyFromPEM privateKeyBytes with
    | .error err => (none, some err)
    | .ok privateKey => (some { PrivateKey := some privateKey }, none)

/-- The claims literal of `SignJWT`, for the clock reading `now` of
`time.Now()`. -/
def JWTClaim.signClaims (now : time.Time) (user : entities.User) : JWTClaim :=
  { UserID := user.ID
    StandardClaims :=
      { ExpiresAt := time.Time.Unix (time.Time.Add now (24 * time.Hour)) } }

/-- The method `(*JWTClaim).SignJWT`. -/
def JWTClaim.SignJWT (lib : jwt.Lib) (now : time.Time) (j : JWTClaim)
    (user : entities.User) : GoString × Option GoError :=
  let claims := JWTClaim.signClaims now user
  match lib.SignedString claims j.PrivateKey with
  | .error err => ([], some err)
  | .ok tokenString => (tokenString, none)

/-- The method `(*JWTClaim).VerifyJWT`; `now` is the clock reading the library
takes while it parses.  The last branch is `return JWTClaim{}, err` with the
`err` of the parse, which is nil there. -/
def JWTClaim.VerifyJWT (lib : jwt.Lib) (now : time.Time) (tokenString : GoString)
    (publicKey : Option rsa.PublicKey) : JWTClaim × Option GoError :=
  match lib.ParseWithClaims tokenString publicKey now with
  | .error err => ({}, some err)
  | .ok token =>
    match token.Claims, token.Valid with
    | some claims, true => (claims, none)
    | _, _ => ({}, none)

/-- The signer `j` as a value of the interface `JWTSigner`, at clock reading
`now`. -/
def JWTClaim.asSigner (lib : jwt.Lib) (now : time.Time) (j : JWTClaim) : JWTSigner :=
  { SignJWT := JWTClaim.SignJWT lib now j
    VerifyJWT := JWTClaim.VerifyJWT lib now }

/-- The function `GenerateSalt`; `rand` is the outcome of `rand.Read` on the
16-byte buffer. -/
def GenerateSalt (rand : Except GoError { b : List UInt8 // b.length = 16 }) :
    GoString × Option GoError :=
  match rand with
  | .error err => ([], some err)
  | .ok salt => (hex.EncodeToString salt.1, none)

/-- The function `HashPassword`. -/
def HashPassword (lib : bcrypt.Lib) (entropy : GoString) (password salt : GoString) :
    GoString × Option GoError :=
  let combined := password ++ salt
  match lib.GenerateFromPassword combined bcrypt.DefaultCost entropy with
  | .error err => ([], some err)
  | .ok hashedPassword => (hashedPassword, none)

/-- The method `PasswordComparerImpl.ComparePassword`. -/
def PasswordComparerImpl.ComparePassword (lib : bcrypt.Lib)
    (password hashedPassword salt : GoString) : Option GoError :=
  let combined := password ++ salt
  lib.CompareHashAndPassword hashedPassword combined

end internal

namespace generated

/-- The bodies the handlers send with `ctx.JSON` (the response types of the
package `generated`, and the error struct that `Login` sends as a body). -/
inductive Body where
  | ErrorResponse (Message : GoString)
  | UserRegistrationResponse (Id : Int)
  | UserLoginResponse (Token : GoString) (UserId : Int)
  | UserResponse (FullName PhoneNumber : GoString)
  | BadRequestError (Message : GoString)
  | NoContent
  deriving DecidableEq, Repr

end generated

namespace echo

/-- The state of an `echo.Context`: the request, the key/value store of
`Set`/`Get`, and the response written so far (status and body). -/
structure Context where
  request : http.Request
  store : List (GoString × Any)
  response : Option (Int × generated.Body)
  deriving DecidableEq, Repr

/-- The method `Context.Set`: `store[key] = val`. -/
def Context.Set (c : Context) (key : GoString) (val : Any) : Context :=
  { c with store := (key, val) :: c.store.filter fun kv => kv.1 != key }

/-- The method `Context.Get`. -/
def Context.Get (c : Context) (key : GoString) : Option Any :=
  c.store.lookup key

/-- The type `echo.HandlerFunc`: a handler works on the context and on the rest
of the world `σ` (database, collaborators) and returns an error or nil. -/
abbrev HandlerFunc (σ : Type) := Context → σ → Option GoError × Context × σ

/-- The function `echo.NewHTTPError(code, message)`. -/
def NewHTTPError (code : Int) (message : GoString) : GoError :=
  .HTTPError code message

end echo

namespace middleware

/-- The function `BearerAuthMiddleware` of `middleware/auth.go`; `ReadFile` is
`os.ReadFile` on the file system of the process. -/
def BearerAuthMiddleware {σ : Type} (ReadFile : GoString → Except GoError GoString)
    (lib : jwt.Lib) (jwtSigner : internal.JWTSigner) (publicKeyPath : GoString)
    (next : echo.HandlerFunc σ) : echo.HandlerFunc σ :=
  fun c s =>
    let authHeader := c.request.Header.Get (go "Authorization")
    if authHeader = go "" then
      (some (echo.NewHTTPError http.StatusForbidden (go "missing Authorization header")), c, s)
    else
      let parts := strings.Split authHeader (go " ")
      if parts.length ≠ 2 ∨ parts.getD 0 [] ≠ go "Bearer" then
        (some (echo.NewHTTPError http.StatusForbidden
          (go "invalid Authorization header format")), c, s)
      else
        let token := parts.getD 1 []
        match ReadFile publicKeyPath with
        | .error _ =>
          (some (echo.NewHTTPError http.StatusInternalServerError
            (go "could not read public key")), c, s)
        | .ok publicKeyBytes =>
          match lib.ParseRSAPublicKeyFromPEM publicKeyBytes with
          | .error _ =>
            (some (echo.NewHTTPError http.StatusInternalServerError
              (go "could not parse public key")), c, s)
          | .ok publicKey =>
            match jwtSigner.VerifyJWT token (some publicKey) with
            | (_, some _) =>
              (some (echo.NewHTTPError http.StatusForbidden (go "invalid token")), c, s)
            | (claims, none) =>
              next (c.Set (go "user_id") (.int claims.UserID)) s

end middleware

namespace main

/-- The function literal that `main` installs with `e.Use`: the bearer gate in
front of the paths that start with `/api/users`, `next` directly for the rest. -/
def routeMiddleware {σ : Type} (ReadFile : GoString → Except GoError GoString)
    (lib : jwt.Lib) (serverJWTClaim : internal.JWTSigner)
    (next : echo.HandlerFunc σ) : echo.HandlerFunc σ :=
  fun c s =>
    if strings.HasPrefix c.request.Path (go "/api/users") then
      middleware.BearerAuthMiddleware ReadFile lib serverJWTClaim (go "public.pem") next c s
    else
      next c s

end main

namespace sql

/-- The outcome of `QueryRowContext(...).Scan(dest...)`: the scanned row, the
sentinel `sql.ErrNoRows`, or another error (with what the destinations hold by
then). -/
inductive ScanResult (α : Type) where
  | scanned (row : α)
  | ErrNoRows
  | failed (err : GoError) (dest : α)
  deriving DecidableEq, Repr

/-- The part of `*sql.DB` the user lookups use: the query text and its arguments
give the outcome of scanning the one row into the four fields of a user. -/
structure DB where
  QueryRowScanUser : GoString → List Any → ScanResult entities.User

end sql

namespace repository

/-- The query text of `GetUserByPhoneNumber`. -/
def getUserByPhoneNumberQuery : GoString :=
  go ("SELECT \n\t\t\t\tid,\n\t\t\t\tfull_name,\n\t\t\t\tphone_number,\n\t\t\t\tpassword,\n" ++
    "\t\t\tFROM users \n\t\t\tWHERE phone_number = $1")

/-- The query text of `GetUserByID`. -/
def getUserByIDQuery : GoString :=
  go ("SELECT \n\t\t\t\tid,\n\t\t\t\tfull_name,\n\t\t\t\tphone_number,\n\t\t\t\tpassword\n" ++
    "\t\t\tFROM users \n\t\t\tWHERE id = $1")

/-- The method `Repository.GetUserByPhoneNumber`. -/
def GetUserByPhoneNumber (Db : sql.DB) (phoneNumber : GoString) :
    entities.User × Option GoError :=
  match Db.QueryRowScanUser getUserByPhoneNumberQuery [.string phoneNumber] with
  | .ErrNoRows => ({}, some (.BadRequestError (go "user not registered")))
  | .failed err user =>
    (user, some (.InternalServerError
      (go "failed to get user by phone number: " ++ err.Error)))
  | .scanned user => (user, none)

/-- The method `Repository.GetUserByID`. -/
def GetUserByID (Db : sql.DB) (id : Int) : entities.User × Option GoError :=
  match Db.QueryRowScanUser getUserByIDQuery [.int id] with
  | .ErrNoRows => ({}, some (.ForbiddenError (go "user not registered")))
  | .failed err user =>
    (user, some (.InternalServerError (go "failed to get user by id: " ++ err.Error)))
  | .scanned user => (user, none)

end repository

namespace handler

/-- The function `errorCode` of `handler/server.go`. -/
def errorCode (err : GoError) : Int :=
  match err.HTTPStatusCode with
  | some code => code
  | none => http.StatusInternalServerError

end handler

/-! ## Instances of the library contracts

Two libraries without any cryptography.  They are not the libraries the service
links; they show that the contracts above can be met and let the theorems be
evaluated at concrete inputs. -/

namespace jwt

/-- The token of `modelLib`: the numbers it carries (modulus and exponent of the
key, user id, `exp`, `iat`, `nbf`), in unary. -/
def modelToken (key : rsa.PublicKey) (claims : internal.JWTClaim) : GoString :=
  List.replicate
    (Encodable.encode
      (key.N, key.E, claims.UserID, claims.StandardClaims.ExpiresAt,
        claims.StandardClaims.IssuedAt, claims.StandardClaims.NotBefore)) 0

/-- A token library that meets `Lib.RoundTrip`: a token names the public key it
verifies under and is rejected under any other key or when its time checks
fail. -/
def modelLib : Lib where
  SignedString claims key :=
    match key with
    | none => .error (.plain (go "key is invalid"))
    | some k => .ok (modelToken k.PublicKey claims)
  ParseWithClaims tokenString publicKey now :=
    match publicKey,
      (Encodable.decode tokenString.length : Option (Nat × Int × Int × Int × Int × Int)) with
    | some k, some (n, e, uid, exp, iat, nbf) =>
      if n = k.N ∧ e = k.E then
        let std : StandardClaims := { ExpiresAt := exp, IssuedAt := iat, NotBefore := nbf }
        if std.Valid (time.Time.Unix now) then
          .ok ⟨some { UserID := uid, StandardClaims := std }, true⟩
        else .error (.plain (go "token is expired"))
      else .error (.plain (go "crypto/rsa: verification error"))
    | _, _ => .error (.plain (go "token contains an invalid number of segments"))
  ParseRSAPublicKeyFromPEM pem :=
    match pem with
    | [] => .error (.plain (go "Invalid Key: Key must be a PEM encoded PKCS1 or PKCS8 key"))
    | b :: _ => .ok ⟨b.toNat, 65537⟩
  ParseRSAPrivateKeyFromPEM pem :=
    match pem with
    | [] => .error (.plain (go "Invalid Key: Key must be a PEM encoded PKCS1 or PKCS8 key"))
    | b :: _ => .ok ⟨⟨b.toNat, 65537⟩, 1, []⟩

end jwt

namespace bcrypt

/-- A password hasher that meets `Lib.AcceptsGenerated` and `Lib.ReadsAtMost72`:
the hash of a password of at most 72 bytes is the password, and a comparison
looks at the first 72 bytes. -/
def modelLib : Lib where
  GenerateFromPassword password _ _ :=
    if password.length > maxPasswordLength then .error ErrPasswordTooLong
    else .ok password
  CompareHashAndPassword hashed password :=
    if hashed = password.take maxPasswordLength then none
    else some ErrMismatchedHashAndPassword

end bcrypt

/-! ## Inputs of the worked examples -/

namespace examples

/-- A private key for `jwt.modelLib`. -/
def privateKey : rsa.PrivateKey := ⟨⟨187, 65537⟩, 1, [11, 17]⟩

/-- The signer that holds `privateKey`. -/
def signer : internal.JWTClaim := { PrivateKey := some privateKey }

/-- The user with id 7. -/
def user7 : entities.User :=
  { ID := 7, FullName := go "John Doe", PhoneNumber := go "+628123456789" }

/-- A salt as `GenerateSalt` returns it when the 16 random bytes are all `0xaa`:
thirty-two times the letter `a`. -/
def salt : GoString := hex.EncodeToString (List.replicate 16 0xaa)

/-- A password of 40 bytes that passes the registration rules. -/
def password40 : GoString := go "Password123!Password123!Password123!abcd"

/-- The password `password40` with one more letter `a`: a different password of
41 bytes. -/
def password41 : GoString := password40 ++ go "a"

end examples

/-- Idealisation of bcrypt as free of collisions: a hash compares unsuccessfully,
with `ErrMismatchedHashAndPassword`, with every password whose first 72 bytes
differ from those of the password it was generated from.  (The library meets
this only up to collisions of its digest; no theorem assumes it silently.) -/
def bcrypt.Lib.RejectsOtherInputs (lib : bcrypt.Lib) : Prop :=
  ∀ (password password' : GoString) (cost : Int) (entropy hashed : GoString),
    lib.GenerateFromPassword password cost entropy = .ok hashed →
    password'.take bcrypt.maxPasswordLength ≠ password.take bcrypt.maxPasswordLength →
    lib.CompareHashAndPassword hashed password' = some bcrypt.ErrMismatchedHashAndPassword

namespace echo

/-- The method `Context.JSON(code, body)`: write the response; the bodies of the
service always encode, so the result is nil. -/
def Context.JSON (c : Context) (code : Int) (body : generated.Body) :
    Option GoError × Context :=
  (none, { c with response := some (code, body) })

/-- A handler together with a count of its invocations, kept in the world next
to the state of the handler: `counted next` is `next` and one more on the
counter. -/
def counted {σ : Type} (next : HandlerFunc σ) : HandlerFunc (σ × Nat) :=
  fun c w => ((next c w.1).1, (next c w.1).2.1, ((next c w.1).2.2, w.2 + 1))

end echo

namespace handler

/-- The function `handleError` of `handler/server.go`. -/
def handleError (c : echo.Context) (err : GoError) : Option GoError × echo.Context :=
  c.JSON (errorCode err) (.ErrorResponse err.Error)

end handler

namespace examples

/-- A request context with the given path and `Authorization` headers (none for
the empty list). -/
def context (path : GoString) (authorization : List GoString) : echo.Context :=
  { request := { Header := authorization.map fun v => (go "Authorization", [v]), Path := path }
    store := []
    response := none }

/-- A file system that holds `public.pem`, the file of one byte `187`. -/
def readFile : GoString → Except GoError GoString := fun path =>
  if path = go "public.pem" then .ok [187]
  else .error (.plain (go "open: no such file or directory"))

/-- The profile handler reduced to its first step: answer 200 with the user id
found in the context, 403 when there is none. -/
def whoami : echo.HandlerFunc Unit := fun c s =>
  match c.Get (go "user_id") with
  | some (.int id) =>
    ((c.JSON http.StatusOK (.UserRegistrationResponse id)).1,
      (c.JSON http.StatusOK (.UserRegistrationResponse id)).2, s)
  | _ =>
    ((handler.handleError c (.ForbiddenError (go "user not logged in"))).1,
      (handler.handleError c (.ForbiddenError (go "user not logged in"))).2, s)

/-- A signer that rejects every token. -/
def rejectingSigner : internal.JWTSigner :=
  { SignJWT := fun _ => ([], some (.plain (go "key is invalid")))
    VerifyJWT := fun _ _ => ({}, some (.plain (go "token is expired"))) }

/-- A signer that accepts every token as a token of user 7. -/
def acceptingSigner : internal.JWTSigner :=
  { SignJWT := fun _ => (go "token", none)
    VerifyJWT := fun _ _ => ({ UserID := 7 }, none) }

/-- A users table without rows. -/
def emptyDB : sql.DB := { QueryRowScanUser := fun _ _ => .ErrNoRows }

end examples

/-! ## Request validation (`handler/auth_handler.go`, `handler/user_handler.go`) -/

namespace generated

/-- The type `generated.RegisterJSONRequestBody`. -/
structure RegisterJSONRequestBody where
  FullName : GoString := []
  Password : GoString := []
  PhoneNumber : GoString := []
  deriving DecidableEq, Repr

/-- The type `generated.LoginJSONRequestBody`. -/
structure LoginJSONRequestBody where
  Password : GoString := []
  PhoneNumber : GoString := []
  deriving DecidableEq, Repr

/-- The type `generated.UpdateProfileJSONRequestBody`. -/
structure UpdateProfileJSONRequestBody where
  FullName : GoString := []
  PhoneNumber : GoString := []
  deriving DecidableEq, Repr

end generated

namespace strings

/-- The function `strings.Join(elems, sep)`. -/
def Join (elems : List GoString) (sep : GoString) : GoString :=
  List.intercalate sep elems

end strings

namespace fmt

/-- The verb `%d` of `fmt.Sprintf` on a non-negative integer. -/
def d (n : Nat) : GoString := go (toString n)

/-- The verb `%s` of `fmt.Sprintf` on a string. -/
def s (v : GoString) : GoString := v

/-- The function `fmt.Errorf` on a format without verbs: an error that carries
the text. -/
def Errorf (text : GoString) : GoError := .plain text

end fmt

namespace regexp

/-- The byte of an ASCII character. -/
def byte (c : Char) : UInt8 := c.toNat.toUInt8

/-- A pattern that is one bracket expression over ranges of ASCII characters,
negated or not: `[A-Z]`, `[^a-zA-Z0-9\s]`. -/
structure Class where
  negated : Bool
  ranges : List (UInt8 × UInt8)
  deriving DecidableEq, Repr

/-- Whether a byte of the text is (part of) a character of the class.  A byte
below `0x80` is an ASCII character; any other byte belongs to a character
outside ASCII (an invalid byte is read as `U+FFFD`), which lies in no range and
so is in the class exactly when the class is negated. -/
def Class.has (cls : Class) (b : UInt8) : Bool :=
  cls.negated != cls.ranges.any fun r => decide (r.1 ≤ b) && decide (b ≤ r.2)

/-- The function `regexp.MatchString(pattern, s)` for such a pattern, which
compiles, so the error is nil: the unanchored search finds a match exactly when
some character of `s` is in the class. -/
def MatchString (pattern : Class) (s : GoString) : Bool :=
  s.any pattern.has

/-- The pattern `[A-Z]`. -/
def upper : Class := ⟨false, [(byte 'A', byte 'Z')]⟩

/-- The pattern `[0-9]`. -/
def digit : Class := ⟨false, [(byte '0', byte '9')]⟩

/-- The pattern `[^a-zA-Z0-9\s]`; the class `\s` is tab, line feed, form feed,
carriage return and space. -/
def special : Class :=
  ⟨true, [(byte 'a', byte 'z'), (byte 'A', byte 'Z'), (byte '0', byte '9'),
    (9, 10), (12, 13), (32, 32)]⟩

end regexp

namespace handler

/-- The function `validatePhoneNumber`. -/
def validatePhoneNumber (phoneNumber : GoString) : Option GoError :=
  let errs : List GoString := []
  let errs :=
    if phoneNumber.length < entities.PhoneNumberMinLength ∨
        phoneNumber.length > entities.PhoneNumberMaxLength then
      errs ++ [go "phone number must be between " ++ fmt.d entities.PhoneNumberMinLength ++
        go " and " ++ fmt.d entities.PhoneNumberMaxLength ++ go " characters"]
    else errs
  let errs :=
    if !strings.HasPrefix phoneNumber entities.PhoneNumberPrefix then
      errs ++ [go "phone number must start with " ++ fmt.s entities.PhoneNumberPrefix]
    else errs
  if errs.length > 0 then some (.BadRequestError (strings.Join errs (go ", ")))
  else none

/-- The function `validateFullName`. -/
def validateFullName (fullName : GoString) : Option GoError :=
  if fullName.length < entities.FullNameMinLength ∨
      fullName.length > entities.FullNameMaxLength then
    some (.BadRequestError (go "full name must be between " ++
      fmt.d entities.FullNameMinLength ++ go " and " ++ fmt.d entities.FullNameMaxLength ++
      go " characters"))
  else none

/-- The function `validateRegistrationRequest`. -/
def validateRegistrationRequest (req : generated.RegisterJSONRequestBody) :
    Option GoError :=
  let errs : List GoString := []
  let errs :=
    match validatePhoneNumber req.PhoneNumber with
    | some err => errs ++ [err.Error]
    | none => errs
  let errs :=
    match validateFullName req.FullName with
    | some err => errs ++ [err.Error]
    | none => errs
  let errs :=
    if req.Password.length < entities.PasswordMinLength ∨
        req.Password.length > entities.PasswordMaxLength then
      errs ++ [go "password must be between " ++ fmt.d entities.PasswordMinLength ++
        go " and " ++ fmt.d entities.PasswordMaxLength ++ go " characters"]
    else errs
  let errs :=
    if !regexp.MatchString regexp.upper req.Password then
      errs ++ [go "password must contain at least one uppercase letter"]
    else errs
  let errs :=
    if !regexp.MatchString regexp.digit req.Password then
      errs ++ [go "password must contain at least one number"]
    else errs
  let errs :=
    if !regexp.MatchString regexp.special req.Password then
      errs ++ [go "password must contain at least one special character"]
    else errs
  if errs.length > 0 then some (.BadRequestError (strings.Join errs (go ", ")))
  else none

/-- The function `validateLoginRequest`. -/
def validateLoginRequest (request : generated.LoginJSONRequestBody) : Option GoError :=
  if request.PhoneNumber = go "" then
    some (fmt.Errorf (go "phone number must not be empty"))
  else if request.Password = go "" then
    some (fmt.Errorf (go "password must not be empty"))
  else none

/-- The function `validateUpdateProfileRequest`. -/
def validateUpdateProfileRequest (request : generated.UpdateProfileJSONRequestBody) :
    Option GoError :=
  if request.PhoneNumber = go "" ∧ request.FullName = go "" then
    some (fmt.Errorf (go "nothing to update"))
  else if request.PhoneNumber ≠ go "" then
    validatePhoneNumber request.PhoneNumber
  else if request.FullName ≠ go "" then
    validateFullName request.FullName
  else none

end handler

/-! ## Handlers (`handler/auth_handler.go`) -/

namespace repository

/-- The interface `RepositoryInterface`; every method is a step on the world
`σ` (the database, or the record a mock keeps). -/
structure RepositoryInterface (σ : Type) where
  CreateUser : entities.User → σ → (Int × Option GoError) × σ
  IsExistUser : entities.User → σ → (Bool × Option GoError) × σ
  GetUserByPhoneNumber : GoString → σ → (entities.User × Option GoError) × σ
  GetUserByID : Int → σ → (entities.User × Option GoError) × σ
  UpdateUserLoginSuccess : entities.User → σ → Option GoError × σ
  UpdateUserProfile : entities.User → σ → Option GoError × σ

end repository

namespace handler

/-- The interface `internal.JWTSigner` as the handlers use it: `SignJWT`, a step
on the world. -/
structure JWTSigner (σ : Type) where
  SignJWT : entities.User → σ → (GoString × Option GoError) × σ

/-- The interface `internal.PasswordComparer` as `Login` calls it, with the
password and the stored hash and nothing else (the declaration under
`internal/auth.go` has a third parameter, the salt; `Login` and its tests use
two). -/
structure PasswordComparer (σ : Type) where
  ComparePassword : GoString → GoString → σ → Option GoError × σ

/-- The type `Server`. -/
structure Server (σ : Type) where
  Repository : repository.RepositoryInterface σ
  JWTClaim : JWTSigner σ
  PasswordComparer : PasswordComparer σ

/-- The function `internal.HashPassword` as `Register` calls it, with the
password alone (the definition under `internal/auth.go` takes the salt as well;
the one `Register` is written against is a parameter of the model). -/
abbrev HashPasswordFunc (σ : Type) := GoString → σ → (GoString × Option GoError) × σ

/-- The outcome of `handleError` or `ctx.JSON` as the outcome of a handler that
leaves the world at `w`. -/
def respond {σ : Type} (r : Option GoError × echo.Context) (w : σ) :
    Option GoError × echo.Context × σ :=
  (r.1, r.2, w)

/-- The method `(*Server).Register`; `Bind` is `ctx.Bind` into the request
body. -/
def Register {σ : Type}
    (Bind : echo.Context → Except GoError generated.RegisterJSONRequestBody)
    (HashPassword : HashPasswordFunc σ) (s : Server σ) : echo.HandlerFunc σ :=
  fun ctx w =>
    match Bind ctx with
    | .error err => respond (handleError ctx (.BadRequestError err.Error)) w
    | .ok request =>
      match validateRegistrationRequest request with
      | some err => respond (handleError ctx err) w
      | none =>
        match s.Repository.IsExistUser { PhoneNumber := request.PhoneNumber } w with
        | ((_, some err), w) => respond (handleError ctx err) w
        | ((true, none), w) =>
          respond (handleError ctx (.ConflictError (go "user already exists"))) w
        | ((false, none), w) =>
          let password := request.Password
          match HashPassword password w with
          | ((_, some err), w) => respond (handleError ctx err) w
          | ((hashedPassword, none), w) =>
            let user : entities.User :=
              { FullName := request.FullName
                PhoneNumber := request.PhoneNumber
                Password := hashedPassword }
            match s.Repository.CreateUser user w with
            | ((_, some err), w) => respond (handleError ctx err) w
            | ((id, none), w) =>
              respond (ctx.JSON http.StatusCreated (.UserRegistrationResponse id)) w

/-- The method `(*Server).Login`. -/
def Login {σ : Type}
    (Bind : echo.Context → Except GoError generated.LoginJSONRequestBody)
    (s : Server σ) : echo.HandlerFunc σ :=
  fun ctx w =>
    match Bind ctx with
    | .error err =>
      respond (ctx.JSON http.StatusBadRequest (.BadRequestError err.Error)) w
    | .ok request =>
      match validateLoginRequest request with
      | some err =>
        respond (ctx.JSON http.StatusBadRequest (.BadRequestError err.Error)) w
      | none =>
        match s.Repository.GetUserByPhoneNumber request.PhoneNumber w with
        | ((_, some err), w) => respond (handleError ctx err) w
        | ((user, none), w) =>
          match s.PasswordComparer.ComparePassword request.Password user.Password w with
          | (some _, w) =>
            respond (handleError ctx (.UnauthorizedError (go "wrong password"))) w
          | (none, w) =>
            match s.Repository.UpdateUserLoginSuccess user w with
            | (some err, w) => respond (handleError ctx err) w
            | (none, w) =>
              match s.JWTClaim.SignJWT user w with
              | ((_, some err), w) => respond (handleError ctx err) w
              | ((token, none), w) =>
                respond (ctx.JSON http.StatusOK (.UserLoginResponse token user.ID)) w

/-- A call of a collaborator of the handlers, with its arguments. -/
inductive Call where
  | CreateUser (user : entities.User)
  | IsExistUser (user : entities.User)
  | GetUserByPhoneNumber (phoneNumber : GoString)
  | GetUserByID (id : Int)
  | UpdateUserLoginSuccess (user : entities.User)
  | UpdateUserProfile (user : entities.User)
  | HashPassword (args : List GoString)
  | ComparePassword (args : List GoString)
  | SignJWT (user : entities.User)
  deriving DecidableEq, Repr

/-- A step on the world, and the call `call` appended to a log kept next to the
world. -/
def logged {σ α : Type} (call : Call) (step : σ → α × σ) : σ × List Call → α × σ × List Call :=
  fun w => ((step w.1).1, (step w.1).2, w.2 ++ [call])

/-- The server `s` with a log of the calls it receives, in order. -/
def Server.traced {σ : Type} (s : Server σ) : Server (σ × List Call) where
  Repository :=
    { CreateUser := fun user => logged (.CreateUser user) (s.Repository.CreateUser user)
      IsExistUser := fun user => logged (.IsExistUser user) (s.Repository.IsExistUser user)
      GetUserByPhoneNumber := fun phoneNumber =>
        logged (.GetUserByPhoneNumber phoneNumber) (s.Repository.GetUserByPhoneNumber phoneNumber)
      GetUserByID := fun id => logged (.GetUserByID id) (s.Repository.GetUserByID id)
      UpdateUserLoginSuccess := fun user =>
        logged (.UpdateUserLoginSuccess user) (s.Repository.UpdateUserLoginSuccess user)
      UpdateUserProfile := fun user =>
        logged (.UpdateUserProfile user) (s.Repository.UpdateUserProfile user) }
  JWTClaim := { SignJWT := fun user => logged (.SignJWT user) (s.JWTClaim.SignJWT user) }
  PasswordComparer :=
    { ComparePassword := fun password hashedPassword =>
        logged (.ComparePassword [password, hashedPassword])
          (s.PasswordComparer.ComparePassword password hashedPassword) }

/-- The hasher with a log of the calls it receives. -/
def tracedHash {σ : Type} (HashPassword : HashPasswordFunc σ) :
    HashPasswordFunc (σ × List Call) :=
  fun password => logged (.HashPassword [password]) (HashPassword password)

end handler

namespace examples

/-- The registration request of the tests. -/
def registration : generated.RegisterJSONRequestBody :=
  { FullName := go "John Doe", Password := go "Password123!", PhoneNumber := go "+628123456789" }

/-- The login request of the tests. -/
def login : generated.LoginJSONRequestBody :=
  { Password := go "Password123!", PhoneNumber := go "+628123456789" }

/-- A hasher that marks its input: the hash of `p` is `$2a$10$` followed by
`p`. -/
def hashPassword {σ : Type} : handler.HashPasswordFunc σ :=
  fun password w => ((go "$2a$10$" ++ password, none), w)

/-- A server over a users table kept in memory: the world is the list of the
users stored so far; ids count from 1; the comparer accepts the hashes of
`hashPassword`; every token is `token`. -/
def server : handler.Server (List entities.User) where
  Repository :=
    { CreateUser := fun user w =>
        ((w.length + 1, none), w ++ [{ user with ID := w.length + 1 }])
      IsExistUser := fun user w =>
        ((w.any fun u => u.PhoneNumber == user.PhoneNumber, none), w)
      GetUserByPhoneNumber := fun phoneNumber w =>
        match w.find? fun u => u.PhoneNumber == phoneNumber with
        | some u => ((u, none), w)
        | none => (({}, some (.BadRequestError (go "user not registered"))), w)
      GetUserByID := fun id w =>
        match w.find? fun u => u.ID == id with
        | some u => ((u, none), w)
        | none => (({}, some (.ForbiddenError (go "user not registered"))), w)
      UpdateUserLoginSuccess := fun _ w => (none, w)
      UpdateUserProfile := fun _ w => (none, w) }
  JWTClaim := { SignJWT := fun _ w => ((go "token", none), w) }
  PasswordComparer :=
    { ComparePassword := fun password hashedPassword w =>
        (if hashedPassword = go "$2a$10$" ++ password then none
          else some bcrypt.ErrMismatchedHashAndPassword, w) }

/-- The user that `registration` leaves in the table of `server`. -/
def john : entities.User :=
  { ID := 1, FullName := go "John Doe", PhoneNumber := go "+628123456789",
    Password := go "$2a$10$Password123!" }

/-- A request context of the login and registration routes. -/
def authContext : echo.Context := context (go "/api/auth") []

end examples

/-! ## The rule table of registration, in the words of the specification -/

namespace spec

/-- An ASCII letter or digit. -/
def isAsciiAlphanumeric (b : UInt8) : Prop :=
  (regexp.byte 'a' ≤ b ∧ b ≤ regexp.byte 'z') ∨ (regexp.byte 'A' ≤ b ∧ b ≤ regexp.byte 'Z') ∨
    (regexp.byte '0' ≤ b ∧ b ≤ regexp.byte '9')

instance (b : UInt8) : Decidable (isAsciiAlphanumeric b) :=
  inferInstanceAs (Decidable (_ ∨ _))

/-- A whitespace character: tab, line feed, form feed, carriage return or
space. -/
def isWhitespace (b : UInt8) : Prop :=
  b = 9 ∨ b = 10 ∨ b = 12 ∨ b = 13 ∨ b = 32

instance (b : UInt8) : Decidable (isWhitespace b) :=
  inferInstanceAs (Decidable (_ ∨ _))

/-- The seven rules of a registration request. -/
structure RegistrationRules (req : generated.RegisterJSONRequestBody) : Prop where
  phoneLength : 10 ≤ req.PhoneNumber.length ∧ req.PhoneNumber.length ≤ 13
  phoneStart : go "+62" <+: req.PhoneNumber
  fullNameLength : 3 ≤ req.FullName.length ∧ req.FullName.length ≤ 60
  passwordLength : 6 ≤ req.Password.length ∧ req.Password.length ≤ 64
  uppercase : ∃ b ∈ req.Password, regexp.byte 'A' ≤ b ∧ b ≤ regexp.byte 'Z'
  number : ∃ b ∈ req.Password, regexp.byte '0' ≤ b ∧ b ≤ regexp.byte '9'
  specialCharacter : ∃ b ∈ req.Password, ¬ isAsciiAlphanumeric b ∧ ¬ isWhitespace b

/-- The messages of the violated rules, in the fixed order: phone length, phone
start, full-name length, password length, uppercase, number, special
character. -/
def violatedRules (req : generated.RegisterJSONRequestBody) : List GoString :=
  (if 10 ≤ req.PhoneNumber.length ∧ req.PhoneNumber.length ≤ 13 then []
    else [go "phone number must be between 10 and 13 characters"]) ++
  (if go "+62" <+: req.PhoneNumber then []
    else [go "phone number must start with +62"]) ++
  (if 3 ≤ req.FullName.length ∧ req.FullName.length ≤ 60 then []
    else [go "full name must be between 3 and 60 characters"]) ++
  (if 6 ≤ req.Password.length ∧ req.Password.length ≤ 64 then []
    else [go "password must be between 6 and 64 characters"]) ++
  (if ∃ b ∈ req.Password, regexp.byte 'A' ≤ b ∧ b ≤ regexp.byte 'Z' then []
    else [go "password must contain at least one uppercase letter"]) ++
  (if ∃ b ∈ req.Password, regexp.byte '0' ≤ b ∧ b ≤ regexp.byte '9' then []
    else [go "password must contain at least one number"]) ++
  (if ∃ b ∈ req.Password, ¬ isAsciiAlphanumeric b ∧ ¬ isWhitespace b then []
    else [go "password must contain at least one special character"])

end spec

/-- Contract of bcrypt since the length check of `GenerateFromPassword`: a
password of more than 72 bytes is refused with `ErrPasswordTooLong`. -/
def bcrypt.Lib.RejectsTooLong (lib : bcrypt.Lib) : Prop :=
  ∀ (password : GoString) (cost : Int) (entropy : GoString),
    password.length > bcrypt.maxPasswordLength →
    lib.GenerateFromPassword password cost entropy = .error bcrypt.ErrPasswordTooLong

namespace examples

/-- A password of 64 bytes, the longest that passes the registration rules. -/
def password64 : GoString :=
  go "Password123!Password123!Password123!Password123!Password123!abcd"

end examples

/-- Contract of the token library that makes the last branch of `VerifyJWT`
unreachable: a parse without error gives a token that is valid and whose
claims are the `*JWTClaim` passed in (golang-jwt sets `Valid` exactly when it
returns a nil error). -/
def jwt.Lib.ValidOnSuccess (lib : jwt.Lib) : Prop :=
  ∀ (tokenString : GoString) (publicKey : Option rsa.PublicKey) (now : time.Time)
    (token : jwt.Token),
    lib.ParseWithClaims tokenString publicKey now = .ok token →
    token.Valid = true ∧ token.Claims ≠ none

namespace examples

/-- The server `server` with the phone lookup of the repository over a users
table without rows: `Repository.GetUserByPhoneNumber` on `emptyDB`. -/
def emptyServer : handler.Server (List entities.User) :=
  { server with
    Repository :=
      { server.Repository with
        GetUserByPhoneNumber := fun phoneNumber w =>
          (repository.GetUserByPhoneNumber emptyDB phoneNumber, w) } }

end examples

/-! ## Lemmas -/

theorem time.unix_add_24h (now : time.Time) :
    time.Time.Unix (time.Time.Add now (24 * time.Hour)) = time.Time.Unix now + 86400 := by
  have h : ∀ n : Int, (n + 24 * (3600 * 1000000000)) / 1000000000 = n / 1000000000 + 86400 := by
    intro n
    omega
  exact h now

theorem jwt.modelLib_roundTrip : jwt.modelLib.RoundTrip := by
  intro claims key tokenString now hsign hvalid
  simp only [jwt.modelLib, Except.ok.injEq] at hsign
  subst hsign
  refine ⟨{ UserID := claims.UserID
            StandardClaims :=
              { ExpiresAt := claims.StandardClaims.ExpiresAt
                IssuedAt := claims.StandardClaims.IssuedAt
                NotBefore := claims.StandardClaims.NotBefore } }, ?_, rfl, rfl, rfl, rfl⟩
  have hv : jwt.StandardClaims.Valid
      { ExpiresAt := claims.StandardClaims.ExpiresAt
        IssuedAt := claims.StandardClaims.IssuedAt
        NotBefore := claims.StandardClaims.NotBefore } (time.Time.Unix now) = true := hvalid
  simp [jwt.modelLib, jwt.modelToken, hv]

theorem bcrypt.modelLib_acceptsGenerated : bcrypt.modelLib.AcceptsGenerated := by
  intro password cost entropy hashed h
  simp only [bcrypt.modelLib] at h ⊢
  split at h
  · cases h
  · cases h
    rw [List.take_of_length_le (by omega)]
    simp

theorem bcrypt.modelLib_readsAtMost72 : bcrypt.modelLib.ReadsAtMost72 := by
  intro hashed password
  simp [bcrypt.modelLib, List.take_take]

/-! ## Token signer and verifier -/

/-- C1: a token that `SignJWT` returns for user `u` on a signer holding `priv`,
verified with the public key of `priv` at any instant whose Unix second is not
after the expiry of the token (in particular immediately afterwards), gives no
error and claims whose `UserID` is `u.ID`; the token library is any library that
meets the round-trip contract. -/
theorem C1_sign_verify_round_trip (lib : jwt.Lib) (hlib : lib.RoundTrip)
    (priv : rsa.PrivateKey) (j : internal.JWTClaim) (hj : j.PrivateKey = some priv)
    (u : entities.User) (now now' : time.Time) (t : GoString)
    (hsign : internal.JWTClaim.SignJWT lib now j u = (t, none))
    (hsoon : time.Time.Unix now' ≤ time.Time.Unix now + 86400) :
    ∃ claims : internal.JWTClaim,
      internal.JWTClaim.VerifyJWT lib now' t (some priv.PublicKey) = (claims, none) ∧
      claims.UserID = u.ID := by
  unfold internal.JWTClaim.SignJWT at hsign
  cases hs : lib.SignedString (internal.JWTClaim.signClaims now u) j.PrivateKey with
  | error e => simp [hs] at hsign
  | ok tokenString =>
    simp only [hs, Prod.mk.injEq, and_true] at hsign
    subst hsign
    rw [hj] at hs
    have hvalid : (internal.JWTClaim.signClaims now u).StandardClaims.Valid
        (time.Time.Unix now') = true := by
      simp only [internal.JWTClaim.signClaims, jwt.StandardClaims.Valid, time.unix_add_24h]
      simp [hsoon]
    obtain ⟨c, hparse, huid, -, -, -⟩ := hlib _ _ _ _ hs hvalid
    refine ⟨c, ?_, huid⟩
    simp [internal.JWTClaim.VerifyJWT, hparse]

/-- Witness of C1: user 7 signed at Unix second 1700000000 and verified one
second later, with `jwt.modelLib`. -/
theorem C1_sign_verify_round_trip_witness :
    ∃ claims : internal.JWTClaim,
      internal.JWTClaim.VerifyJWT jwt.modelLib 1700000001000000000
        (internal.JWTClaim.SignJWT jwt.modelLib 1700000000000000000
          examples.signer examples.user7).1
        (some examples.privateKey.PublicKey) = (claims, none) ∧
      claims.UserID = 7 :=
  C1_sign_verify_round_trip jwt.modelLib jwt.modelLib_roundTrip examples.privateKey
    examples.signer rfl examples.user7 1700000000000000000 1700000001000000000 _ rfl
    (by decide)

/-- C2: for every user `u` and instant `now`, `SignJWT` signs, with the key of
the signer, a payload whose `UserID` is `u.ID` and whose `ExpiresAt` is the Unix
second of `now` plus 86400 (24 hours), and returns the outcome of that
signature. -/
theorem C2_sign_claims (lib : jwt.Lib) (now : time.Time) (j : internal.JWTClaim)
    (u : entities.User) :
    ∃ claims : internal.JWTClaim,
      claims.UserID = u.ID ∧
      claims.StandardClaims.ExpiresAt = time.Time.Unix now + 86400 ∧
      internal.JWTClaim.SignJWT lib now j u =
        match lib.SignedString claims j.PrivateKey with
        | .error err => ([], some err)
        | .ok tokenString => (tokenString, none) :=
  ⟨internal.JWTClaim.signClaims now u, rfl, time.unix_add_24h now, rfl⟩

/-! ## Credential hasher -/

/-- C3: when `HashPassword(P, S)` returns a hash `h` without error,
`ComparePassword(P, h, S)` returns no error; bcrypt is any library whose
comparison accepts the password a hash was generated from. -/
theorem C3_hash_compare_round_trip (lib : bcrypt.Lib) (hlib : lib.AcceptsGenerated)
    (entropy P S h : GoString)
    (hhash : internal.HashPassword lib entropy P S = (h, none)) :
    internal.PasswordComparerImpl.ComparePassword lib P h S = none := by
  unfold internal.HashPassword at hhash
  cases hg : lib.GenerateFromPassword (P ++ S) bcrypt.DefaultCost entropy with
  | error e => simp [hg] at hhash
  | ok hashed =>
    simp only [hg, Prod.mk.injEq, and_true] at hhash
    subst hhash
    exact hlib _ _ _ _ hg

/-- Witness of C3: the 40-byte password and the salt of thirty-two `a`, with
`bcrypt.modelLib`. -/
theorem C3_hash_compare_round_trip_witness :
    internal.PasswordComparerImpl.ComparePassword bcrypt.modelLib examples.password40
      (internal.HashPassword bcrypt.modelLib [] examples.password40 examples.salt).1
      examples.salt = none :=
  C3_hash_compare_round_trip bcrypt.modelLib bcrypt.modelLib_acceptsGenerated []
    examples.password40 examples.salt _ (by decide)

theorem bcrypt.modelLib_rejectsOtherInputs : bcrypt.modelLib.RejectsOtherInputs := by
  intro password password' cost entropy hashed h hne
  simp only [bcrypt.modelLib] at h ⊢
  split at h
  · cases h
  · cases h
    rw [List.take_of_length_le (l := password) (by omega)] at hne
    rw [if_neg (fun h => hne h.symm)]

theorem internal.hashPassword_ok (lib : bcrypt.Lib) (entropy P S h : GoString)
    (hhash : internal.HashPassword lib entropy P S = (h, none)) :
    lib.GenerateFromPassword (P ++ S) bcrypt.DefaultCost entropy = .ok h := by
  unfold internal.HashPassword at hhash
  cases hg : lib.GenerateFromPassword (P ++ S) bcrypt.DefaultCost entropy with
  | error e => simp [hg] at hhash
  | ok hashed =>
    simp only [hg, Prod.mk.injEq, and_true] at hhash
    rw [hhash]

theorem internal.compare_of_same_first72 (lib : bcrypt.Lib) (hacc : lib.AcceptsGenerated)
    (h72 : lib.ReadsAtMost72) (entropy P P' S h : GoString)
    (hhash : internal.HashPassword lib entropy P S = (h, none))
    (hsame : (P' ++ S).take bcrypt.maxPasswordLength = (P ++ S).take bcrypt.maxPasswordLength) :
    internal.PasswordComparerImpl.ComparePassword lib P' h S = none := by
  have hg := internal.hashPassword_ok lib entropy P S h hhash
  unfold internal.PasswordComparerImpl.ComparePassword
  rw [h72, hsame, ← h72]
  exact hacc _ _ _ _ hg

/-- C4, as stated, fails: the 41-byte password `password40 ++ "a"` differs from
the 40-byte `password40`, the latter hashes with the salt of thirty-two `a`
(combined input of exactly 72 bytes), and with every bcrypt that accepts what it
generated and reads at most 72 bytes `ComparePassword` accepts the 41-byte
password against that hash: the two combined inputs agree on their first 72
bytes. -/
theorem C4_counterexample :
    examples.password41 ≠ examples.password40 ∧
    (∃ h, internal.HashPassword bcrypt.modelLib [] examples.password40 examples.salt
      = (h, none)) ∧
    ∀ lib : bcrypt.Lib, lib.AcceptsGenerated → lib.ReadsAtMost72 →
      ∀ entropy h : GoString,
        internal.HashPassword lib entropy examples.password40 examples.salt = (h, none) →
        internal.PasswordComparerImpl.ComparePassword lib examples.password41 h
          examples.salt = none := by
  refine ⟨by decide, ⟨_, rfl⟩, ?_⟩
  intro lib hacc h72 entropy h hhash
  exact internal.compare_of_same_first72 lib hacc h72 entropy _ _ _ h hhash (by decide)

/-- C4, amended: when `HashPassword(P, S)` returns `h`, the outcome of
`ComparePassword(P', h, S)` is that of bcrypt on the first 72 bytes of `P' + S`;
it is nil whenever these are the first 72 bytes of `P + S`, also for `P' ≠ P`;
and with a bcrypt idealised as free of collisions it is the mismatch error
whenever they are not, in particular for every `P' ≠ P` when neither `P + S`
nor `P' + S` exceeds 72 bytes. -/
theorem C4_compare_reads_72_bytes (lib : bcrypt.Lib) (hacc : lib.AcceptsGenerated)
    (h72 : lib.ReadsAtMost72) (entropy P P' S h : GoString)
    (hhash : internal.HashPassword lib entropy P S = (h, none)) :
    internal.PasswordComparerImpl.ComparePassword lib P' h S =
        lib.CompareHashAndPassword h ((P' ++ S).take 72) ∧
    ((P' ++ S).take 72 = (P ++ S).take 72 →
      internal.PasswordComparerImpl.ComparePassword lib P' h S = none) ∧
    (lib.RejectsOtherInputs → (P' ++ S).take 72 ≠ (P ++ S).take 72 →
      internal.PasswordComparerImpl.ComparePassword lib P' h S =
        some bcrypt.ErrMismatchedHashAndPassword) ∧
    (lib.RejectsOtherInputs → P' ≠ P → (P' ++ S).length ≤ 72 → (P ++ S).length ≤ 72 →
      internal.PasswordComparerImpl.ComparePassword lib P' h S =
        some bcrypt.ErrMismatchedHashAndPassword) := by
  have hgen := internal.hashPassword_ok lib entropy P S h hhash
  refine ⟨h72 _ _, internal.compare_of_same_first72 lib hacc h72 entropy P P' S h hhash,
    fun hrej hne => hrej _ _ _ _ _ hgen hne, ?_⟩
  intro hrej hne hlen' hlen
  refine hrej _ _ _ _ _ hgen ?_
  show (P' ++ S).take 72 ≠ (P ++ S).take 72
  rw [List.take_of_length_le hlen', List.take_of_length_le hlen]
  exact fun heq => hne (List.append_cancel_right heq)

/-- Witness of C4 (amended): against the hash of the 40-byte password with the
salt of thirty-two `a`, `bcrypt.modelLib` accepts the 41-byte password
`password41` and rejects the password `Password123?`. -/
theorem C4_compare_reads_72_bytes_witness :
    internal.PasswordComparerImpl.ComparePassword bcrypt.modelLib examples.password41
        (internal.HashPassword bcrypt.modelLib [] examples.password40 examples.salt).1
        examples.salt = none ∧
    internal.PasswordComparerImpl.ComparePassword bcrypt.modelLib (go "Password123?")
        (internal.HashPassword bcrypt.modelLib [] examples.password40 examples.salt).1
        examples.salt = some bcrypt.ErrMismatchedHashAndPassword :=
  ⟨(C4_compare_reads_72_bytes bcrypt.modelLib bcrypt.modelLib_acceptsGenerated
      bcrypt.modelLib_readsAtMost72 [] examples.password40 examples.password41 examples.salt _
      rfl).2.1 (by decide),
    (C4_compare_reads_72_bytes bcrypt.modelLib bcrypt.modelLib_acceptsGenerated
      bcrypt.modelLib_readsAtMost72 [] examples.password40 (go "Password123?") examples.salt _
      rfl).2.2.2 bcrypt.modelLib_rejectsOtherInputs (by decide) (by decide) (by decide)⟩

/-! ## Bearer gate -/

theorem strings.splitFrom_no_sep (b : UInt8) (token acc : GoString) (h : b ∉ token) :
    strings.splitFrom [b] 0 token acc = [acc.reverse ++ token] := by
  induction token generalizing acc with
  | nil => simp [strings.splitFrom]
  | cons x xs ih =>
    have hx : b ≠ x := fun e => h (by simp [e])
    have hxs : b ∉ xs := fun e => h (by simp [e])
    simp [strings.splitFrom, List.isPrefixOf, hx, ih _ hxs]

theorem strings.split_bearer (token : GoString) (h : (32 : UInt8) ∉ token) :
    strings.Split (go "Bearer " ++ token) (go " ") = [go "Bearer", token] := by
  have h1 : go "Bearer " = [66, 101, 97, 114, 101, 114, 32] := by decide
  have h2 : go "Bearer" = [66, 101, 97, 114, 101, 114] := by decide
  have h3 : go " " = [32] := by decide
  rw [h1, h2, h3]
  simp [strings.Split, strings.splitFrom, List.isPrefixOf, strings.splitFrom_no_sep _ _ _ h]

theorem strings.pair_shape (parts : List GoString) (b : GoString) :
    (∃ token, parts = [b, token]) ↔ ¬ (parts.length ≠ 2 ∨ parts.getD 0 [] ≠ b) := by
  constructor
  · rintro ⟨token, rfl⟩
    simp
  · intro h
    match parts, h with
    | [x, y], h => exact ⟨y, by simpa using h⟩
    | [], h => simp at h
    | [_], h => simp at h
    | _ :: _ :: _ :: _, h => simp at h

/-- The gate on a request without `Authorization` value, or with one that does
not split into `["Bearer", token]`: the 403 error, the context and the world
untouched, whatever `next` is. -/
theorem middleware.reject_of_shape {σ : Type} (ReadFile : GoString → Except GoError GoString)
    (lib : jwt.Lib) (jwtSigner : internal.JWTSigner) (publicKeyPath : GoString)
    (next : echo.HandlerFunc σ) (c : echo.Context) (s : σ)
    (h : c.request.Header.Get (go "Authorization") = [] ∨
      ¬ ∃ token, strings.Split (c.request.Header.Get (go "Authorization")) (go " ")
        = [go "Bearer", token]) :
    middleware.BearerAuthMiddleware ReadFile lib jwtSigner publicKeyPath next c s =
      (some (.HTTPError 403
        (if c.request.Header.Get (go "Authorization") = [] then
          go "missing Authorization header"
        else go "invalid Authorization header format")), c, s) := by
  unfold middleware.BearerAuthMiddleware
  have hgo : go "" = [] := by decide
  by_cases he : c.request.Header.Get (go "Authorization") = []
  · simp [he, hgo, echo.NewHTTPError, http.StatusForbidden]
  · have hs := h.resolve_left he
    rw [strings.pair_shape] at hs
    simp only [not_not] at hs
    simp only [hgo, he, if_false, if_pos hs, echo.NewHTTPError, http.StatusForbidden]

/-- The gate on a request whose header splits into `["Bearer", token]` and whose
public key loads: the outcome is decided by `VerifyJWT`. -/
theorem middleware.verify_of_shape {σ : Type} (ReadFile : GoString → Except GoError GoString)
    (lib : jwt.Lib) (jwtSigner : internal.JWTSigner) (publicKeyPath : GoString)
    (next : echo.HandlerFunc σ) (c : echo.Context) (s : σ)
    (token publicKeyBytes : GoString) (publicKey : rsa.PublicKey)
    (hhdr : strings.Split (c.request.Header.Get (go "Authorization")) (go " ")
      = [go "Bearer", token])
    (hread : ReadFile publicKeyPath = .ok publicKeyBytes)
    (hparse : lib.ParseRSAPublicKeyFromPEM publicKeyBytes = .ok publicKey) :
    middleware.BearerAuthMiddleware ReadFile lib jwtSigner publicKeyPath next c s =
      match jwtSigner.VerifyJWT token (some publicKey) with
      | (_, some _) => (some (.HTTPError 403 (go "invalid token")), c, s)
      | (claims, none) => next (c.Set (go "user_id") (.int claims.UserID)) s := by
  unfold middleware.BearerAuthMiddleware
  have hgo : go "" = [] := by decide
  have he : c.request.Header.Get (go "Authorization") ≠ [] := by
    intro he
    have hempty : strings.Split [] (go " ") = [[]] := by decide
    rw [he, hempty] at hhdr
    simp at hhdr
  simp only [hgo, he, if_false, hhdr, hread, hparse]
  simp [echo.NewHTTPError, http.StatusForbidden]

theorem echo.get_set (c : echo.Context) (key : GoString) (val : Any) :
    (c.Set key val).Get key = some val := by
  simp [echo.Context.Set, echo.Context.Get, List.lookup]

/-- C5: on a request whose `Authorization` header is absent or empty, or does
not split on single spaces into exactly `["Bearer", token]`, the gate returns an
HTTP 403 error and hands back the context and the world as they were, whatever
the next handler is: the handler is not invoked and `user_id` is not set.  The
five headers named by the claim are of the rejected kind. -/
theorem C5_gate_rejects_missing_or_malformed
    (ReadFile : GoString → Except GoError GoString) (lib : jwt.Lib)
    (jwtSigner : internal.JWTSigner) (publicKeyPath : GoString) (c : echo.Context)
    (h : c.request.Header.Get (go "Authorization") = [] ∨
      ¬ ∃ token, strings.Split (c.request.Header.Get (go "Authorization")) (go " ")
        = [go "Bearer", token]) :
    (∃ message, ∀ (σ : Type) (next : echo.HandlerFunc σ) (s : σ),
      middleware.BearerAuthMiddleware ReadFile lib jwtSigner publicKeyPath next c s =
        (some (.HTTPError 403 message), c, s)) ∧
    (∀ header ∈ [go "Token abc", go "Bearer", go "bearer abc", go "Bearer a b",
        go "Bearer  abc"],
      ¬ ∃ token, strings.Split header (go " ") = [go "Bearer", token]) := by
  refine ⟨⟨_, fun σ next s =>
    middleware.reject_of_shape ReadFile lib jwtSigner publicKeyPath next c s h⟩, ?_⟩
  have hall : ∀ header ∈ [go "Token abc", go "Bearer", go "bearer abc", go "Bearer a b",
      go "Bearer  abc"],
      (strings.Split header (go " ")).length ≠ 2 ∨
        (strings.Split header (go " ")).getD 0 [] ≠ go "Bearer" := by decide
  intro header hmem
  rw [strings.pair_shape]
  exact not_not.mpr (hall header hmem)

/-- Witness of C5: the header `Bearer  abc`, with two spaces. -/
theorem C5_gate_rejects_missing_or_malformed_witness :
    (∃ message, ∀ (σ : Type) (next : echo.HandlerFunc σ) (s : σ),
      middleware.BearerAuthMiddleware examples.readFile jwt.modelLib examples.acceptingSigner
          (go "public.pem") next (examples.context (go "/api/users") [go "Bearer  abc"]) s =
        (some (.HTTPError 403 message),
          examples.context (go "/api/users") [go "Bearer  abc"], s)) ∧
    (∀ header ∈ [go "Token abc", go "Bearer", go "bearer abc", go "Bearer a b",
        go "Bearer  abc"],
      ¬ ∃ token, strings.Split header (go " ") = [go "Bearer", token]) :=
  C5_gate_rejects_missing_or_malformed examples.readFile jwt.modelLib
    examples.acceptingSigner (go "public.pem")
    (examples.context (go "/api/users") [go "Bearer  abc"])
    (Or.inr (by
      rw [strings.pair_shape]
      exact not_not.mpr (by decide)))

/-- C6, as stated, fails: a request without `Authorization` header and a request
with the header `Token abc` are both rejected, with different messages. -/
theorem C6_counterexample :
    (examples.context (go "/api/users") []).request.Header.Get (go "Authorization") = [] ∧
    (¬ ∃ token, strings.Split
        ((examples.context (go "/api/users") [go "Token abc"]).request.Header.Get
          (go "Authorization")) (go " ") = [go "Bearer", token]) ∧
    (middleware.BearerAuthMiddleware examples.readFile jwt.modelLib examples.acceptingSigner
        (go "public.pem") examples.whoami (examples.context (go "/api/users") []) ()).1 =
      some (.HTTPError 403 (go "missing Authorization header")) ∧
    (middleware.BearerAuthMiddleware examples.readFile jwt.modelLib examples.acceptingSigner
        (go "public.pem") examples.whoami
        (examples.context (go "/api/users") [go "Token abc"]) ()).1 =
      some (.HTTPError 403 (go "invalid Authorization header format")) ∧
    (middleware.BearerAuthMiddleware examples.readFile jwt.modelLib examples.acceptingSigner
        (go "public.pem") examples.whoami (examples.context (go "/api/users") []) ()).1 ≠
      (middleware.BearerAuthMiddleware examples.readFile jwt.modelLib examples.acceptingSigner
        (go "public.pem") examples.whoami
        (examples.context (go "/api/users") [go "Token abc"]) ()).1 := by
  refine ⟨by decide, ?_, by decide, by decide, by decide⟩
  rw [strings.pair_shape]
  exact not_not.mpr (by decide)

/-- C6, amended: a request without `Authorization` header and a request whose
header is not of the form `Bearer <token>` get the same status, 403; the first
gets the message `missing Authorization header`, the second, when its header is
not empty, the message `invalid Authorization header format`. -/
theorem C6_same_status_distinct_message {σ : Type}
    (ReadFile : GoString → Except GoError GoString) (lib : jwt.Lib)
    (jwtSigner : internal.JWTSigner) (publicKeyPath : GoString)
    (next : echo.HandlerFunc σ) (r1 r2 : echo.Context) (s1 s2 : σ)
    (h1 : r1.request.Header.Get (go "Authorization") = [])
    (h2 : ¬ ∃ token, strings.Split (r2.request.Header.Get (go "Authorization")) (go " ")
      = [go "Bearer", token]) :
    (middleware.BearerAuthMiddleware ReadFile lib jwtSigner publicKeyPath next r1 s1).1 =
      some (.HTTPError 403 (go "missing Authorization header")) ∧
    ∃ message,
      (middleware.BearerAuthMiddleware ReadFile lib jwtSigner publicKeyPath next r2 s2).1 =
        some (.HTTPError 403 message) ∧
      (r2.request.Header.Get (go "Authorization") ≠ [] →
        message = go "invalid Authorization header format") := by
  constructor
  · rw [middleware.reject_of_shape ReadFile lib jwtSigner publicKeyPath next r1 s1 (Or.inl h1)]
    simp [h1]
  · refine ⟨_, by
      rw [middleware.reject_of_shape ReadFile lib jwtSigner publicKeyPath next r2 s2
        (Or.inr h2)], ?_⟩
    intro hne
    simp [hne]

/-- Witness of C6 (amended): no header against the header `Token abc`. -/
theorem C6_same_status_distinct_message_witness :
    (middleware.BearerAuthMiddleware examples.readFile jwt.modelLib examples.acceptingSigner
        (go "public.pem") examples.whoami (examples.context (go "/api/users") []) ()).1 =
      some (.HTTPError 403 (go "missing Authorization header")) ∧
    ∃ message,
      (middleware.BearerAuthMiddleware examples.readFile jwt.modelLib
          examples.acceptingSigner (go "public.pem") examples.whoami
          (examples.context (go "/api/users") [go "Token abc"]) ()).1 =
        some (.HTTPError 403 message) ∧
      ((examples.context (go "/api/users") [go "Token abc"]).request.Header.Get
          (go "Authorization") ≠ [] →
        message = go "invalid Authorization header format") :=
  C6_same_status_distinct_message examples.readFile jwt.modelLib examples.acceptingSigner
    (go "public.pem") examples.whoami (examples.context (go "/api/users") [])
    (examples.context (go "/api/users") [go "Token abc"]) () () (by decide)
    (by
      rw [strings.pair_shape]
      exact not_not.mpr (by decide))


/-- C7: on a request with the header `Bearer <token>` (a token without space)
whose public key loads, when `VerifyJWT` returns an error, whichever it is, the
gate returns the HTTP 403 error with message `invalid token` and hands back the
context and the world as they were, whatever the next handler is: the handler is
not invoked and `user_id` is not set.  Hence a missing header, a malformed
header and a failed verification all give status 403. -/
theorem C7_gate_rejects_failed_verification
    (ReadFile : GoString → Except GoError GoString) (lib : jwt.Lib)
    (jwtSigner : internal.JWTSigner) (publicKeyPath : GoString) (c : echo.Context)
    (token publicKeyBytes : GoString) (publicKey : rsa.PublicKey)
    (claims : internal.JWTClaim) (err : GoError)
    (hhdr : c.request.Header.Get (go "Authorization") = go "Bearer " ++ token)
    (htoken : (32 : UInt8) ∉ token)
    (hread : ReadFile publicKeyPath = .ok publicKeyBytes)
    (hparse : lib.ParseRSAPublicKeyFromPEM publicKeyBytes = .ok publicKey)
    (hverify : jwtSigner.VerifyJWT token (some publicKey) = (claims, some err)) :
    (∀ (σ : Type) (next : echo.HandlerFunc σ) (s : σ),
      middleware.BearerAuthMiddleware ReadFile lib jwtSigner publicKeyPath next c s =
        (some (.HTTPError 403 (go "invalid token")), c, s)) ∧
    (∀ c' : echo.Context,
      (c'.request.Header.Get (go "Authorization") = [] ∨
        ¬ ∃ token', strings.Split (c'.request.Header.Get (go "Authorization")) (go " ")
          = [go "Bearer", token']) →
      ∃ message, ∀ (σ : Type) (next : echo.HandlerFunc σ) (s : σ),
        middleware.BearerAuthMiddleware ReadFile lib jwtSigner publicKeyPath next c' s =
          (some (.HTTPError 403 message), c', s)) := by
  constructor
  · intro σ next s
    rw [middleware.verify_of_shape ReadFile lib jwtSigner publicKeyPath next c s token
      publicKeyBytes publicKey (by rw [hhdr]; exact strings.split_bearer token htoken)
      hread hparse, hverify]
  · intro c' h
    exact ⟨_, fun σ next s =>
      middleware.reject_of_shape ReadFile lib jwtSigner publicKeyPath next c' s h⟩

/-- Witness of C7: the header `Bearer abc` in front of a signer that rejects
every token. -/
theorem C7_gate_rejects_failed_verification_witness :
    (∀ (σ : Type) (next : echo.HandlerFunc σ) (s : σ),
      middleware.BearerAuthMiddleware examples.readFile jwt.modelLib examples.rejectingSigner
          (go "public.pem") next (examples.context (go "/api/users") [go "Bearer abc"]) s =
        (some (.HTTPError 403 (go "invalid token")),
          examples.context (go "/api/users") [go "Bearer abc"], s)) ∧
    (∀ c' : echo.Context,
      (c'.request.Header.Get (go "Authorization") = [] ∨
        ¬ ∃ token', strings.Split (c'.request.Header.Get (go "Authorization")) (go " ")
          = [go "Bearer", token']) →
      ∃ message, ∀ (σ : Type) (next : echo.HandlerFunc σ) (s : σ),
        middleware.BearerAuthMiddleware examples.readFile jwt.modelLib
            examples.rejectingSigner (go "public.pem") next c' s =
          (some (.HTTPError 403 message), c', s)) :=
  C7_gate_rejects_failed_verification examples.readFile jwt.modelLib
    examples.rejectingSigner (go "public.pem")
    (examples.context (go "/api/users") [go "Bearer abc"]) (go "abc") [187] ⟨187, 65537⟩ {}
    (.plain (go "token is expired")) (by decide) (by decide) rfl rfl rfl

/-- C8: on a request with the header `Bearer <token>` (a token without space)
whose public key loads, when `VerifyJWT(token, publicKey)` returns claims
without error, the gate is the next handler run once on the context in which
`user_id` is the `UserID` of the claims: it returns what that run returns, and a
handler that counts its invocations counts one more. -/
theorem C8_gate_passes_verified
    (ReadFile : GoString → Except GoError GoString) (lib : jwt.Lib)
    (jwtSigner : internal.JWTSigner) (publicKeyPath : GoString) (c : echo.Context)
    (token publicKeyBytes : GoString) (publicKey : rsa.PublicKey)
    (claims : internal.JWTClaim)
    (hhdr : c.request.Header.Get (go "Authorization") = go "Bearer " ++ token)
    (htoken : (32 : UInt8) ∉ token)
    (hread : ReadFile publicKeyPath = .ok publicKeyBytes)
    (hparse : lib.ParseRSAPublicKeyFromPEM publicKeyBytes = .ok publicKey)
    (hverify : jwtSigner.VerifyJWT token (some publicKey) = (claims, none)) :
    (c.Set (go "user_id") (.int claims.UserID)).Get (go "user_id")
      = some (.int claims.UserID) ∧
    (∀ (σ : Type) (next : echo.HandlerFunc σ) (s : σ),
      middleware.BearerAuthMiddleware ReadFile lib jwtSigner publicKeyPath next c s =
        next (c.Set (go "user_id") (.int claims.UserID)) s) ∧
    (∀ (σ : Type) (next : echo.HandlerFunc σ) (s : σ) (n : Nat),
      middleware.BearerAuthMiddleware ReadFile lib jwtSigner publicKeyPath
          (echo.counted next) c (s, n) =
        ((next (c.Set (go "user_id") (.int claims.UserID)) s).1,
          (next (c.Set (go "user_id") (.int claims.UserID)) s).2.1,
          ((next (c.Set (go "user_id") (.int claims.UserID)) s).2.2, n + 1))) := by
  have key : ∀ (σ : Type) (next : echo.HandlerFunc σ) (s : σ),
      middleware.BearerAuthMiddleware ReadFile lib jwtSigner publicKeyPath next c s =
        next (c.Set (go "user_id") (.int claims.UserID)) s := by
    intro σ next s
    rw [middleware.verify_of_shape ReadFile lib jwtSigner publicKeyPath next c s token
      publicKeyBytes publicKey (by rw [hhdr]; exact strings.split_bearer token htoken)
      hread hparse, hverify]
  refine ⟨echo.get_set _ _ _, key, ?_⟩
  intro σ next s n
  rw [key]
  rfl

/-- Witness of C8: the header `Bearer abc` in front of a signer that accepts
every token as one of user 7. -/
theorem C8_gate_passes_verified_witness :
    ((examples.context (go "/api/users") [go "Bearer abc"]).Set (go "user_id")
        (.int 7)).Get (go "user_id") = some (.int 7) ∧
    (∀ (σ : Type) (next : echo.HandlerFunc σ) (s : σ),
      middleware.BearerAuthMiddleware examples.readFile jwt.modelLib examples.acceptingSigner
          (go "public.pem") next (examples.context (go "/api/users") [go "Bearer abc"]) s =
        next ((examples.context (go "/api/users") [go "Bearer abc"]).Set (go "user_id")
          (.int 7)) s) ∧
    (∀ (σ : Type) (next : echo.HandlerFunc σ) (s : σ) (n : Nat),
      middleware.BearerAuthMiddleware examples.readFile jwt.modelLib examples.acceptingSigner
          (go "public.pem") (echo.counted next)
          (examples.context (go "/api/users") [go "Bearer abc"]) (s, n) =
        ((next ((examples.context (go "/api/users") [go "Bearer abc"]).Set (go "user_id")
            (.int 7)) s).1,
          (next ((examples.context (go "/api/users") [go "Bearer abc"]).Set (go "user_id")
            (.int 7)) s).2.1,
          ((next ((examples.context (go "/api/users") [go "Bearer abc"]).Set (go "user_id")
            (.int 7)) s).2.2, n + 1))) :=
  C8_gate_passes_verified examples.readFile jwt.modelLib examples.acceptingSigner
    (go "public.pem") (examples.context (go "/api/users") [go "Bearer abc"]) (go "abc") [187]
    ⟨187, 65537⟩ { UserID := 7 } (by decide) (by decide) rfl rfl rfl

/-! ## Routing wrapper -/

theorem strings.hasPrefix_iff (s pre : GoString) :
    strings.HasPrefix s pre = true ↔ ∃ rest, s = pre ++ rest := by
  unfold strings.HasPrefix
  constructor
  · intro h
    simp only [Bool.and_eq_true, decide_eq_true_eq, beq_iff_eq] at h
    refine ⟨s.drop pre.length, ?_⟩
    conv_lhs => rw [← List.take_append_drop pre.length s]
    rw [h.2]
  · rintro ⟨rest, rfl⟩
    simp

/-- C9: the routing wrapper is the bearer gate (with the signer of the server
and `public.pem`) on every request whose path has the string prefix
`/api/users`, and is the next handler itself, with no look at the
`Authorization` header, on every other request.  The match is a prefix match:
`/api/users`, `/api/users/1` and `/api/usersfoo` are gated, `/api/auth/login`
and `/api/user` are not. -/
theorem C9_route_gate {σ : Type} (ReadFile : GoString → Except GoError GoString)
    (lib : jwt.Lib) (serverJWTClaim : internal.JWTSigner) (next : echo.HandlerFunc σ)
    (c : echo.Context) (s : σ) :
    ((∃ rest, c.request.Path = go "/api/users" ++ rest) →
      main.routeMiddleware ReadFile lib serverJWTClaim next c s =
        middleware.BearerAuthMiddleware ReadFile lib serverJWTClaim (go "public.pem")
          next c s) ∧
    ((¬ ∃ rest, c.request.Path = go "/api/users" ++ rest) →
      main.routeMiddleware ReadFile lib serverJWTClaim next c s = next c s) ∧
    (∀ path ∈ [go "/api/users", go "/api/users/1", go "/api/usersfoo"],
      ∃ rest, path = go "/api/users" ++ rest) ∧
    (∀ path ∈ [go "/api/auth/login", go "/api/user"],
      ¬ ∃ rest, path = go "/api/users" ++ rest) := by
  refine ⟨?_, ?_, ?_, ?_⟩
  · intro h
    rw [← strings.hasPrefix_iff] at h
    simp [main.routeMiddleware, h]
  · intro h
    rw [← strings.hasPrefix_iff] at h
    simp [main.routeMiddleware, h]
  · have hall : ∀ path ∈ [go "/api/users", go "/api/users/1", go "/api/usersfoo"],
        strings.HasPrefix path (go "/api/users") = true := by decide
    intro path hmem
    exact (strings.hasPrefix_iff _ _).mp (hall path hmem)
  · have hall : ∀ path ∈ [go "/api/auth/login", go "/api/user"],
        ¬ strings.HasPrefix path (go "/api/users") = true := by decide
    intro path hmem h
    exact hall path hmem ((strings.hasPrefix_iff _ _).mpr h)

/-- Witness of C9: without `Authorization` header, `/api/usersfoo` is answered by
the gate and `/api/user` by the handler. -/
theorem C9_route_gate_witness :
    main.routeMiddleware examples.readFile jwt.modelLib examples.acceptingSigner
        examples.whoami (examples.context (go "/api/usersfoo") []) () =
      middleware.BearerAuthMiddleware examples.readFile jwt.modelLib examples.acceptingSigner
        (go "public.pem") examples.whoami (examples.context (go "/api/usersfoo") []) () ∧
    main.routeMiddleware examples.readFile jwt.modelLib examples.acceptingSigner
        examples.whoami (examples.context (go "/api/user") []) () =
      examples.whoami (examples.context (go "/api/user") []) () :=
  ⟨(C9_route_gate examples.readFile jwt.modelLib examples.acceptingSigner examples.whoami
      (examples.context (go "/api/usersfoo") []) ()).1 ⟨go "foo", by decide⟩,
    (C9_route_gate examples.readFile jwt.modelLib examples.acceptingSigner examples.whoami
      (examples.context (go "/api/user") []) ()).2.1
      (fun h => absurd ((strings.hasPrefix_iff _ _).mpr h) (by decide))⟩

/-! ## User lookups -/

/-- C10, as stated, fails: on a users table without rows `GetUserByPhoneNumber`
returns a `BadRequestError`, whose status is 400, not a `ForbiddenError`; and
whatever the database answers, `GetUserByPhoneNumber` returns no
`ForbiddenError`. -/
theorem C10_counterexample :
    examples.emptyDB.QueryRowScanUser repository.getUserByPhoneNumberQuery
        [.string (go "+628123456789")] = .ErrNoRows ∧
    repository.GetUserByPhoneNumber examples.emptyDB (go "+628123456789") =
      ({}, some (.BadRequestError (go "user not registered"))) ∧
    handler.errorCode (.BadRequestError (go "user not registered")) = 400 ∧
    (∀ message, (repository.GetUserByPhoneNumber examples.emptyDB (go "+628123456789")).2 ≠
      some (.ForbiddenError message)) ∧
    ∀ (Db : sql.DB) (phoneNumber message : GoString),
      (repository.GetUserByPhoneNumber Db phoneNumber).2 ≠ some (.ForbiddenError message) := by
  refine ⟨rfl, rfl, rfl, ?_, ?_⟩
  · intro message h
    cases h
  · intro Db phoneNumber message h
    unfold repository.GetUserByPhoneNumber at h
    cases hq : Db.QueryRowScanUser repository.getUserByPhoneNumberQuery
      [.string phoneNumber] with
    | scanned row => simp [hq] at h
    | ErrNoRows => simp [hq] at h
    | failed err dest => simp [hq] at h

/-! ## Validation -/

theorem strings.hasPrefix_eq_isPrefix (s pre : GoString) :
    strings.HasPrefix s pre = true ↔ pre <+: s := by
  rw [strings.hasPrefix_iff]
  constructor
  · rintro ⟨rest, rfl⟩
    exact List.prefix_append _ _
  · rintro ⟨rest, rfl⟩
    exact ⟨rest, rfl⟩

theorem regexp.matchString_upper (s : GoString) :
    regexp.MatchString regexp.upper s = true ↔
      ∃ b ∈ s, regexp.byte 'A' ≤ b ∧ b ≤ regexp.byte 'Z' := by
  simp [regexp.MatchString, regexp.upper, regexp.Class.has, List.any_eq_true]

theorem regexp.matchString_digit (s : GoString) :
    regexp.MatchString regexp.digit s = true ↔
      ∃ b ∈ s, regexp.byte '0' ≤ b ∧ b ≤ regexp.byte '9' := by
  simp [regexp.MatchString, regexp.digit, regexp.Class.has, List.any_eq_true]

set_option maxRecDepth 100000 in
theorem regexp.special_has (b : UInt8) :
    regexp.special.has b = true ↔ ¬ spec.isAsciiAlphanumeric b ∧ ¬ spec.isWhitespace b := by
  have key : ∀ n : Fin 256, regexp.special.has ⟨⟨n⟩⟩ = true ↔
      ¬ spec.isAsciiAlphanumeric ⟨⟨n⟩⟩ ∧ ¬ spec.isWhitespace ⟨⟨n⟩⟩ := by
    decide
  rcases b with ⟨⟨n⟩⟩
  exact key n

theorem regexp.matchString_special (s : GoString) :
    regexp.MatchString regexp.special s = true ↔
      ∃ b ∈ s, ¬ spec.isAsciiAlphanumeric b ∧ ¬ spec.isWhitespace b := by
  simp only [regexp.MatchString, List.any_eq_true, regexp.special_has]

theorem handler.validateRegistrationRequest_eq (req : generated.RegisterJSONRequestBody) :
    handler.validateRegistrationRequest req =
      if spec.violatedRules req = [] then none
      else some (.BadRequestError (strings.Join (spec.violatedRules req) (go ", "))) := by
  have hm1 : go "phone number must be between " ++ fmt.d entities.PhoneNumberMinLength ++
      go " and " ++ fmt.d entities.PhoneNumberMaxLength ++ go " characters" =
      go "phone number must be between 10 and 13 characters" := by decide
  have hm2 : go "phone number must start with " ++ fmt.s entities.PhoneNumberPrefix =
      go "phone number must start with +62" := by decide
  have hm3 : go "full name must be between " ++ fmt.d entities.FullNameMinLength ++
      go " and " ++ fmt.d entities.FullNameMaxLength ++ go " characters" =
      go "full name must be between 3 and 60 characters" := by decide
  have hm4 : go "password must be between " ++ fmt.d entities.PasswordMinLength ++
      go " and " ++ fmt.d entities.PasswordMaxLength ++ go " characters" =
      go "password must be between 6 and 64 characters" := by decide
  have e1 : (req.PhoneNumber.length < entities.PhoneNumberMinLength ∨
      req.PhoneNumber.length > entities.PhoneNumberMaxLength) ↔
      ¬ (10 ≤ req.PhoneNumber.length ∧ req.PhoneNumber.length ≤ 13) := by
    simp only [entities.PhoneNumberMinLength, entities.PhoneNumberMaxLength]
    omega
  have e2 : (!strings.HasPrefix req.PhoneNumber entities.PhoneNumberPrefix) = true ↔
      ¬ (go "+62" <+: req.PhoneNumber) := by
    rw [Bool.not_eq_true', ← Bool.not_eq_true, strings.hasPrefix_eq_isPrefix]
    rfl
  have e3 : (req.FullName.length < entities.FullNameMinLength ∨
      req.FullName.length > entities.FullNameMaxLength) ↔
      ¬ (3 ≤ req.FullName.length ∧ req.FullName.length ≤ 60) := by
    simp only [entities.FullNameMinLength, entities.FullNameMaxLength]
    omega
  have e4 : (req.Password.length < entities.PasswordMinLength ∨
      req.Password.length > entities.PasswordMaxLength) ↔
      ¬ (6 ≤ req.Password.length ∧ req.Password.length ≤ 64) := by
    simp only [entities.PasswordMinLength, entities.PasswordMaxLength]
    omega
  have e5 : (!regexp.MatchString regexp.upper req.Password) = true ↔
      ¬ ∃ b ∈ req.Password, regexp.byte 'A' ≤ b ∧ b ≤ regexp.byte 'Z' := by
    rw [Bool.not_eq_true', ← Bool.not_eq_true, regexp.matchString_upper]
  have e6 : (!regexp.MatchString regexp.digit req.Password) = true ↔
      ¬ ∃ b ∈ req.Password, regexp.byte '0' ≤ b ∧ b ≤ regexp.byte '9' := by
    rw [Bool.not_eq_true', ← Bool.not_eq_true, regexp.matchString_digit]
  have e7 : (!regexp.MatchString regexp.special req.Password) = true ↔
      ¬ ∃ b ∈ req.Password, ¬ spec.isAsciiAlphanumeric b ∧ ¬ spec.isWhitespace b := by
    rw [Bool.not_eq_true', ← Bool.not_eq_true, regexp.matchString_special]
  unfold handler.validateRegistrationRequest handler.validatePhoneNumber
    handler.validateFullName spec.violatedRules
  simp only [hm1, hm2, hm3, hm4, e1, e2, e3, e4, e5, e6, e7]
  generalize go "phone number must be between 10 and 13 characters" = m1
  generalize go "phone number must start with +62" = m2
  generalize go "full name must be between 3 and 60 characters" = m3
  generalize go "password must be between 6 and 64 characters" = m4
  generalize go "password must contain at least one uppercase letter" = m5
  generalize go "password must contain at least one number" = m6
  generalize go "password must contain at least one special character" = m7
  generalize go ", " = sep
  by_cases h1 : 10 ≤ req.PhoneNumber.length ∧ req.PhoneNumber.length ≤ 13 <;>
  by_cases h2 : go "+62" <+: req.PhoneNumber <;>
  by_cases h3 : 3 ≤ req.FullName.length ∧ req.FullName.length ≤ 60 <;>
  by_cases h4 : 6 ≤ req.Password.length ∧ req.Password.length ≤ 64 <;>
  by_cases h5 : ∃ b ∈ req.Password, regexp.byte 'A' ≤ b ∧ b ≤ regexp.byte 'Z' <;>
  by_cases h6 : ∃ b ∈ req.Password, regexp.byte '0' ≤ b ∧ b ≤ regexp.byte '9' <;>
  by_cases h7 : ∃ b ∈ req.Password, ¬ spec.isAsciiAlphanumeric b ∧ ¬ spec.isWhitespace b <;>
  simp [h1, h2, h3, h4, h5, h6, h7, GoError.Error, strings.Join, List.intercalate]


theorem spec.violatedRules_eq_nil (req : generated.RegisterJSONRequestBody) :
    spec.violatedRules req = [] ↔ spec.RegistrationRules req := by
  constructor
  · intro h
    simp only [spec.violatedRules, List.append_eq_nil, ite_eq_left_iff, List.cons_ne_nil,
      imp_false, not_not] at h
    obtain ⟨⟨⟨⟨⟨⟨h1, h2⟩, h3⟩, h4⟩, h5⟩, h6⟩, h7⟩ := h
    exact ⟨h1, h2, h3, h4, h5, h6, h7⟩
  · rintro ⟨h1, h2, h3, h4, h5, h6, h7⟩
    simp only [spec.violatedRules, if_pos h1, if_pos h2, if_pos h3, if_pos h4, if_pos h5,
      if_pos h6, if_pos h7, List.append_nil]

/-- C16: `errorCode` is 400 for every `BadRequestError`, 401 for every
`UnauthorizedError`, 403 for every `ForbiddenError`, 404 for every
`NotFoundError`, 409 for every `ConflictError`, 500 for every
`InternalServerError` and 500 for every error without `HTTPStatusCode` method
(a plain repository error among them); `handleError` answers with that status
and the text of `Error()` as message. -/
theorem C16_error_status :
    (∀ m, handler.errorCode (.BadRequestError m) = 400) ∧
    (∀ m, handler.errorCode (.UnauthorizedError m) = 401) ∧
    (∀ m, handler.errorCode (.ForbiddenError m) = 403) ∧
    (∀ m, handler.errorCode (.NotFoundError m) = 404) ∧
    (∀ m, handler.errorCode (.ConflictError m) = 409) ∧
    (∀ m, handler.errorCode (.InternalServerError m) = 500) ∧
    (∀ err : GoError, err.HTTPStatusCode = none → handler.errorCode err = 500) ∧
    (∀ text, handler.errorCode (.plain text) = 500) ∧
    (∀ (c : echo.Context) (err : GoError),
      handler.handleError c err =
        (none, { c with response := some (handler.errorCode err, .ErrorResponse err.Error) })) ∧
    (handler.handleError examples.authContext (.plain (go "error db call exist user"))).2.response
      = some (500, .ErrorResponse (go "error db call exist user")) := by
  refine ⟨fun _ => rfl, fun _ => rfl, fun _ => rfl, fun _ => rfl, fun _ => rfl, fun _ => rfl,
    ?_, fun _ => rfl, fun _ _ => rfl, rfl⟩
  intro err h
  simp [handler.errorCode, h, http.StatusInternalServerError]

set_option maxRecDepth 100000 in
/-- C17: `validateRegistrationRequest` equals its rule table: it returns nil
exactly when the seven rules hold (phone number of 10 to 13 bytes that starts
with `+62`, full name of 3 to 60 bytes, password of 6 to 64 bytes with a
character `A-Z`, a digit and a character that is neither ASCII alphanumeric nor
whitespace), and otherwise a `BadRequestError` whose message is the messages of
the violated rules, in the fixed order, joined by `, `; for the empty request
that is the seven-message string of the test. -/
theorem C17_registration_rule_table :
    (∀ req, handler.validateRegistrationRequest req = none ↔ spec.RegistrationRules req) ∧
    (∀ req, ¬ spec.RegistrationRules req →
      handler.validateRegistrationRequest req =
        some (.BadRequestError (strings.Join (spec.violatedRules req) (go ", ")))) ∧
    handler.validateRegistrationRequest {} = some (.BadRequestError (go
      ("phone number must be between 10 and 13 characters, phone number must start with +62, " ++
      "full name must be between 3 and 60 characters, " ++
      "password must be between 6 and 64 characters, " ++
      "password must contain at least one uppercase letter, " ++
      "password must contain at least one number, " ++
      "password must contain at least one special character"))) := by
  refine ⟨?_, ?_, by decide⟩
  · intro req
    rw [handler.validateRegistrationRequest_eq, ← spec.violatedRules_eq_nil]
    by_cases h : spec.violatedRules req = [] <;> simp [h]
  · intro req hrules
    rw [handler.validateRegistrationRequest_eq, if_neg]
    rwa [spec.violatedRules_eq_nil]

/-- C18, the failing input: the update request with the valid phone number
`+628123456789` and the full name `Jo` of two bytes passes
`validateUpdateProfileRequest`, although `validateFullName` rejects `Jo`; with a
phone number supplied the function returns what `validatePhoneNumber` returns
and never looks at the full name. -/
theorem C18_full_name_unchecked_with_phone :
    handler.validateUpdateProfileRequest
        { FullName := go "Jo", PhoneNumber := go "+628123456789" } = none ∧
    handler.validateFullName (go "Jo") =
      some (.BadRequestError (go "full name must be between 3 and 60 characters")) ∧
    handler.validateUpdateProfileRequest { FullName := go "Jo" } =
      some (.BadRequestError (go "full name must be between 3 and 60 characters")) ∧
    ∀ request : generated.UpdateProfileJSONRequestBody, request.PhoneNumber ≠ [] →
      handler.validateUpdateProfileRequest request =
        handler.validatePhoneNumber request.PhoneNumber := by
  refine ⟨by decide, by decide, by decide, ?_⟩
  intro request h
  have hgo : go "" = [] := by decide
  simp [handler.validateUpdateProfileRequest, hgo, h]

/-- C19: `validateLoginRequest` returns an error exactly when the phone number
or the password is empty: `phone number must not be empty` whenever the phone
number is empty, `password must not be empty` when only the password is, and nil
when neither is, whatever the two strings are. -/
theorem C19_login_validation (request : generated.LoginJSONRequestBody) :
    (handler.validateLoginRequest request ≠ none ↔
      request.PhoneNumber = [] ∨ request.Password = []) ∧
    (request.PhoneNumber = [] →
      handler.validateLoginRequest request =
        some (.plain (go "phone number must not be empty"))) ∧
    (request.PhoneNumber ≠ [] → request.Password = [] →
      handler.validateLoginRequest request =
        some (.plain (go "password must not be empty"))) ∧
    (request.PhoneNumber ≠ [] → request.Password ≠ [] →
      handler.validateLoginRequest request = none) := by
  have hgo : go "" = [] := by decide
  unfold handler.validateLoginRequest
  rw [hgo]
  by_cases hp : request.PhoneNumber = [] <;> by_cases hw : request.Password = [] <;>
    simp [hp, hw, fmt.Errorf]

/-- Witness of C19: the three requests of the test. -/
theorem C19_login_validation_witness :
    handler.validateLoginRequest {} = some (.plain (go "phone number must not be empty")) ∧
    handler.validateLoginRequest { PhoneNumber := go "+628123456789", Password := go "" } =
      some (.plain (go "password must not be empty")) ∧
    handler.validateLoginRequest examples.login = none :=
  ⟨(C19_login_validation {}).2.1 rfl,
    (C19_login_validation { PhoneNumber := go "+628123456789", Password := go "" }).2.2.1
      (by decide) (by decide),
    (C19_login_validation examples.login).2.2.2 (by decide) (by decide)⟩

set_option maxRecDepth 100000 in
/-- Witness of C17: the registration request of the tests passes, and the same
request with the password `password` violates three rules. -/
theorem C17_registration_rule_table_witness :
    handler.validateRegistrationRequest examples.registration = none ∧
    handler.validateRegistrationRequest { examples.registration with Password := go "password" } =
      some (.BadRequestError (go ("password must contain at least one uppercase letter, " ++
        "password must contain at least one number, " ++
        "password must contain at least one special character"))) :=
  ⟨(C17_registration_rule_table.1 examples.registration).mpr
      ⟨by decide, by decide, by decide, by decide, by decide, by decide, by decide⟩,
    (C17_registration_rule_table.2.1 { examples.registration with Password := go "password" }
      (fun h => absurd h.uppercase (by decide))).trans (by decide)⟩


/-! ## Register and Login -/

theorem handler.validateRegistrationRequest_kind
    (req : generated.RegisterJSONRequestBody) (err : GoError)
    (h : handler.validateRegistrationRequest req = some err) :
    ∃ message, err = .BadRequestError message := by
  rw [handler.validateRegistrationRequest_eq] at h
  split at h
  · cases h
  · exact ⟨_, (Option.some.inj h).symm⟩

theorem handler.validateLoginRequest_nonempty (request : generated.LoginJSONRequestBody)
    (hphone : request.PhoneNumber ≠ []) (hpassword : request.Password ≠ []) :
    handler.validateLoginRequest request = none := by
  have hgo : go "" = [] := by decide
  simp [handler.validateLoginRequest, hgo, hphone, hpassword]

/-- The run of `Register` on a request that fails validation. -/
theorem handler.register_invalid {σ : Type}
    (Bind : echo.Context → Except GoError generated.RegisterJSONRequestBody)
    (HashPassword : handler.HashPasswordFunc σ) (s : handler.Server σ)
    (ctx : echo.Context) (w : σ) (request : generated.RegisterJSONRequestBody) (err : GoError)
    (hbind : Bind ctx = .ok request)
    (hinvalid : handler.validateRegistrationRequest request = some err) :
    handler.Register Bind HashPassword s ctx w =
      (none, { ctx with response := some (400, .ErrorResponse err.Error) }, w) := by
  obtain ⟨message, rfl⟩ := handler.validateRegistrationRequest_kind request err hinvalid
  unfold handler.Register
  simp only [hbind, hinvalid]
  rfl

/-- The run of `Register` on a valid request whose phone number is registered. -/
theorem handler.register_conflict {σ : Type}
    (Bind : echo.Context → Except GoError generated.RegisterJSONRequestBody)
    (HashPassword : handler.HashPasswordFunc σ) (s : handler.Server σ)
    (ctx : echo.Context) (w w1 : σ) (request : generated.RegisterJSONRequestBody)
    (hbind : Bind ctx = .ok request)
    (hvalid : handler.validateRegistrationRequest request = none)
    (hexist : s.Repository.IsExistUser { PhoneNumber := request.PhoneNumber } w
      = ((true, none), w1)) :
    handler.Register Bind HashPassword s ctx w =
      (none, { ctx with response := some (409, .ErrorResponse (go "user already exists")) },
        w1) := by
  unfold handler.Register
  simp only [hbind, hvalid, hexist]
  rfl

/-- The run of `Register` on a valid request that is not registered yet and
hashes. -/
theorem handler.register_create {σ : Type}
    (Bind : echo.Context → Except GoError generated.RegisterJSONRequestBody)
    (HashPassword : handler.HashPasswordFunc σ) (s : handler.Server σ)
    (ctx : echo.Context) (w w1 w2 w3 : σ) (request : generated.RegisterJSONRequestBody)
    (hashed : GoString) (res : Int × Option GoError)
    (hbind : Bind ctx = .ok request)
    (hvalid : handler.validateRegistrationRequest request = none)
    (hexist : s.Repository.IsExistUser { PhoneNumber := request.PhoneNumber } w
      = ((false, none), w1))
    (hhash : HashPassword request.Password w1 = ((hashed, none), w2))
    (hcreate : s.Repository.CreateUser
      { FullName := request.FullName, PhoneNumber := request.PhoneNumber, Password := hashed }
      w2 = (res, w3)) :
    handler.Register Bind HashPassword s ctx w =
      (none,
        { ctx with
          response := some (match res.2 with
            | some err => (handler.errorCode err, .ErrorResponse err.Error)
            | none => (201, .UserRegistrationResponse res.1)) },
        w3) := by
  unfold handler.Register
  simp only [hbind, hvalid, hexist, hhash, hcreate]
  obtain ⟨id, err⟩ := res
  cases err <;> rfl

/-- The run of `Login` up to a failed comparison. -/
theorem handler.login_wrong_password {σ : Type}
    (Bind : echo.Context → Except GoError generated.LoginJSONRequestBody)
    (s : handler.Server σ) (ctx : echo.Context) (w w1 w2 : σ)
    (request : generated.LoginJSONRequestBody) (user : entities.User) (err : GoError)
    (hbind : Bind ctx = .ok request)
    (hphone : request.PhoneNumber ≠ []) (hpassword : request.Password ≠ [])
    (hget : s.Repository.GetUserByPhoneNumber request.PhoneNumber w = ((user, none), w1))
    (hcompare : s.PasswordComparer.ComparePassword request.Password user.Password w1
      = (some err, w2)) :
    handler.Login Bind s ctx w =
      (none, { ctx with response := some (401, .ErrorResponse (go "wrong password")) }, w2) := by
  unfold handler.Login
  simp only [hbind, handler.validateLoginRequest_nonempty request hphone hpassword, hget,
    hcompare]
  rfl

/-- The run of `Login` after a successful comparison. -/
theorem handler.login_compared {σ : Type}
    (Bind : echo.Context → Except GoError generated.LoginJSONRequestBody)
    (s : handler.Server σ) (ctx : echo.Context) (w w1 w2 : σ)
    (request : generated.LoginJSONRequestBody) (user : entities.User)
    (hbind : Bind ctx = .ok request)
    (hphone : request.PhoneNumber ≠ []) (hpassword : request.Password ≠ [])
    (hget : s.Repository.GetUserByPhoneNumber request.PhoneNumber w = ((user, none), w1))
    (hcompare : s.PasswordComparer.ComparePassword request.Password user.Password w1
      = (none, w2)) :
    handler.Login Bind s ctx w =
      match s.Repository.UpdateUserLoginSuccess user w2 with
      | (some err, w3) =>
        (none, { ctx with response := some (handler.errorCode err, .ErrorResponse err.Error) },
          w3)
      | (none, w3) =>
        match s.JWTClaim.SignJWT user w3 with
        | ((_, some err), w4) =>
          (none, { ctx with response := some (handler.errorCode err, .ErrorResponse err.Error) },
            w4)
        | ((token, none), w4) =>
          (none, { ctx with response := some (200, .UserLoginResponse token user.ID) }, w4) := by
  unfold handler.Login
  simp only [hbind, handler.validateLoginRequest_nonempty request hphone hpassword, hget,
    hcompare]
  rfl

/-- The run of `Register`, with the log of its calls, on a valid request that
is not registered yet and hashes: the calls are `IsExistUser`, `HashPassword`
with the request password as its only argument, and `CreateUser` with the full
name and phone number of the request and the output of `HashPassword` as
password. -/
theorem handler.register_create_traced {σ : Type}
    (Bind : echo.Context → Except GoError generated.RegisterJSONRequestBody)
    (HashPassword : handler.HashPasswordFunc σ) (s : handler.Server σ)
    (ctx : echo.Context) (w w1 w2 w3 : σ) (request : generated.RegisterJSONRequestBody)
    (hashed : GoString) (res : Int × Option GoError)
    (hbind : Bind ctx = .ok request)
    (hvalid : handler.validateRegistrationRequest request = none)
    (hexist : s.Repository.IsExistUser { PhoneNumber := request.PhoneNumber } w
      = ((false, none), w1))
    (hhash : HashPassword request.Password w1 = ((hashed, none), w2))
    (hcreate : s.Repository.CreateUser
      { FullName := request.FullName, PhoneNumber := request.PhoneNumber, Password := hashed }
      w2 = (res, w3))
    (log : List handler.Call) :
    handler.Register Bind (handler.tracedHash HashPassword) s.traced ctx (w, log) =
      (none,
        { ctx with
          response := some (match res.2 with
            | some err => (handler.errorCode err, .ErrorResponse err.Error)
            | none => (201, .UserRegistrationResponse res.1)) },
        (w3, log ++
          [.IsExistUser { PhoneNumber := request.PhoneNumber },
            .HashPassword [request.Password],
            .CreateUser
              { FullName := request.FullName, PhoneNumber := request.PhoneNumber,
                Password := hashed }])) := by
  have hexist' : s.traced.Repository.IsExistUser { PhoneNumber := request.PhoneNumber }
      (w, log) = ((false, none),
        (w1, log ++ [.IsExistUser { PhoneNumber := request.PhoneNumber }])) := by
    simp [handler.Server.traced, handler.logged, hexist]
  have hhash' : handler.tracedHash HashPassword request.Password
      (w1, log ++ [.IsExistUser { PhoneNumber := request.PhoneNumber }]) =
      ((hashed, none), (w2, log ++ [.IsExistUser { PhoneNumber := request.PhoneNumber }] ++
        [.HashPassword [request.Password]])) := by
    simp [handler.tracedHash, handler.logged, hhash]
  have hcreate' := congrArg
    (fun r : (Int × Option GoError) × σ =>
      (r.1, r.2, log ++ [handler.Call.IsExistUser { PhoneNumber := request.PhoneNumber }] ++
        [.HashPassword [request.Password]] ++
        [.CreateUser
          { FullName := request.FullName, PhoneNumber := request.PhoneNumber, Password := hashed }]))
    hcreate
  rw [handler.register_create Bind _ _ ctx _ _ _ _ request hashed res hbind hvalid hexist'
    hhash' hcreate']
  simp

/-- C11, the failing input: on the registration request of the tests (full name
`John Doe`, phone number `+628123456789`, password `Password123!`) `Register`
answers 201 with the id returned by `CreateUser` after the calls `IsExistUser`,
`HashPassword` and `CreateUser`, and `HashPassword` receives the request
password as its only argument: no call of `HashPassword` carries a salt, and no
salt is generated.  The same holds for every server, every hasher and every
valid request that is not registered yet and hashes: the log of the run gets
these three calls and nothing else, and the password of the user passed to
`CreateUser` is what the one-argument call returned. -/
theorem C11_register_hashes_without_salt :
    handler.Register (fun _ => .ok examples.registration)
        (handler.tracedHash examples.hashPassword) examples.server.traced
        examples.authContext ([], []) =
      (none,
        { examples.authContext with response := some (201, .UserRegistrationResponse 1) },
        ([examples.john],
          [.IsExistUser { PhoneNumber := go "+628123456789" },
            .HashPassword [go "Password123!"],
            .CreateUser { examples.john with ID := 0 }])) ∧
    (∀ salt : GoString,
      handler.Call.HashPassword [go "Password123!", salt] ∉
        (handler.Register (fun _ => .ok examples.registration)
          (handler.tracedHash examples.hashPassword) examples.server.traced
          examples.authContext ([], [])).2.2.2) ∧
    (∀ (σ : Type) (Bind : echo.Context → Except GoError generated.RegisterJSONRequestBody)
      (HashPassword : handler.HashPasswordFunc σ) (s : handler.Server σ)
      (ctx : echo.Context) (w w1 w2 w3 : σ) (request : generated.RegisterJSONRequestBody)
      (hashed : GoString) (id : Int) (log : List handler.Call),
      Bind ctx = .ok request →
      handler.validateRegistrationRequest request = none →
      s.Repository.IsExistUser { PhoneNumber := request.PhoneNumber } w = ((false, none), w1) →
      HashPassword request.Password w1 = ((hashed, none), w2) →
      s.Repository.CreateUser
        { FullName := request.FullName, PhoneNumber := request.PhoneNumber, Password := hashed }
        w2 = ((id, none), w3) →
      handler.Register Bind (handler.tracedHash HashPassword) s.traced ctx (w, log) =
        (none, { ctx with response := some (201, .UserRegistrationResponse id) },
          (w3, log ++
            [.IsExistUser { PhoneNumber := request.PhoneNumber },
              .HashPassword [request.Password],
              .CreateUser
                { FullName := request.FullName, PhoneNumber := request.PhoneNumber,
                  Password := hashed }]))) := by
  have hrun : handler.Register (fun _ => .ok examples.registration)
      (handler.tracedHash examples.hashPassword) examples.server.traced
      examples.authContext ([], []) =
      (none,
        { examples.authContext with response := some (201, .UserRegistrationResponse 1) },
        ([examples.john],
          [.IsExistUser { PhoneNumber := go "+628123456789" },
            .HashPassword [go "Password123!"],
            .CreateUser { examples.john with ID := 0 }])) := by decide
  refine ⟨hrun, ?_, ?_⟩
  · intro salt
    rw [hrun]
    simp
  · intro σ Bind HashPassword s ctx w w1 w2 w3 request hashed id log hbind hvalid hexist hhash
      hcreate
    rw [handler.register_create_traced Bind HashPassword s ctx w w1 w2 w3 request hashed
      (id, none) hbind hvalid hexist hhash hcreate log]

/-- C12: when `validateRegistrationRequest` returns an error, `Register`
answers with status 400 and the message of that error, and calls no
collaborator (neither `IsExistUser` nor `CreateUser` nor `HashPassword`): the
outcome is the same for every server and hasher, the world is untouched and the
log of calls gets no entry. -/
theorem C12_register_rejects_invalid
    (Bind : echo.Context → Except GoError generated.RegisterJSONRequestBody)
    (ctx : echo.Context) (request : generated.RegisterJSONRequestBody) (err : GoError)
    (hbind : Bind ctx = .ok request)
    (hinvalid : handler.validateRegistrationRequest request = some err) :
    handler.errorCode err = 400 ∧
    ∀ (σ : Type) (HashPassword : handler.HashPasswordFunc σ) (s : handler.Server σ) (w : σ),
      handler.Register Bind HashPassword s ctx w =
        (none, { ctx with response := some (400, .ErrorResponse err.Error) }, w) ∧
      ∀ log : List handler.Call,
        handler.Register Bind (handler.tracedHash HashPassword) s.traced ctx (w, log) =
          (none, { ctx with response := some (400, .ErrorResponse err.Error) }, (w, log)) := by
  constructor
  · obtain ⟨message, rfl⟩ := handler.validateRegistrationRequest_kind request err hinvalid
    rfl
  · intro σ HashPassword s w
    exact ⟨handler.register_invalid Bind HashPassword s ctx w request err hbind hinvalid,
      fun log => handler.register_invalid Bind _ _ ctx (w, log) request err hbind hinvalid⟩

set_option maxRecDepth 100000 in
/-- Witness of C12: the registration request of the tests with the password
`password`. -/
theorem C12_register_rejects_invalid_witness :
    handler.errorCode (.BadRequestError (go
      ("password must contain at least one uppercase letter, " ++
        "password must contain at least one number, " ++
        "password must contain at least one special character"))) = 400 ∧
    ∀ (σ : Type) (HashPassword : handler.HashPasswordFunc σ) (s : handler.Server σ) (w : σ),
      handler.Register
          (fun _ => .ok { examples.registration with Password := go "password" })
          HashPassword s examples.authContext w =
        (none,
          { examples.authContext with
            response := some (400, .ErrorResponse (GoError.Error (.BadRequestError (go
              ("password must contain at least one uppercase letter, " ++
                "password must contain at least one number, " ++
                "password must contain at least one special character"))))) }, w) ∧
      ∀ log : List handler.Call,
        handler.Register
            (fun _ => .ok { examples.registration with Password := go "password" })
            (handler.tracedHash HashPassword) s.traced examples.authContext (w, log) =
          (none,
            { examples.authContext with
              response := some (400, .ErrorResponse (GoError.Error (.BadRequestError (go
                ("password must contain at least one uppercase letter, " ++
                  "password must contain at least one number, " ++
                  "password must contain at least one special character"))))) },
            (w, log)) :=
  C12_register_rejects_invalid _ examples.authContext
    { examples.registration with Password := go "password" } _ rfl (by decide)

/-- C13: for a valid registration request for which `IsExistUser` returns
`(true, nil)`, `Register` answers with status 409 and the message `user already
exists`, and the only call it makes is that `IsExistUser`: `CreateUser` is not
called. -/
theorem C13_register_conflict {σ : Type}
    (Bind : echo.Context → Except GoError generated.RegisterJSONRequestBody)
    (HashPassword : handler.HashPasswordFunc σ) (s : handler.Server σ)
    (ctx : echo.Context) (w w1 : σ) (request : generated.RegisterJSONRequestBody)
    (hbind : Bind ctx = .ok request)
    (hvalid : handler.validateRegistrationRequest request = none)
    (hexist : s.Repository.IsExistUser { PhoneNumber := request.PhoneNumber } w
      = ((true, none), w1)) :
    handler.Register Bind HashPassword s ctx w =
      (none, { ctx with response := some (409, .ErrorResponse (go "user already exists")) },
        w1) ∧
    ∀ log : List handler.Call,
      handler.Register Bind (handler.tracedHash HashPassword) s.traced ctx (w, log) =
        (none, { ctx with response := some (409, .ErrorResponse (go "user already exists")) },
          (w1, log ++ [.IsExistUser { PhoneNumber := request.PhoneNumber }])) :=
  ⟨handler.register_conflict Bind HashPassword s ctx w w1 request hbind hvalid hexist,
    fun log => handler.register_conflict Bind _ _ ctx (w, log) _ request hbind hvalid
      (by simp [handler.Server.traced, handler.logged, hexist])⟩

/-- Witness of C13: the registration request of the tests on the users table
that holds John already. -/
theorem C13_register_conflict_witness :
    handler.Register (fun _ => .ok examples.registration) examples.hashPassword
        examples.server examples.authContext [examples.john] =
      (none,
        { examples.authContext with
          response := some (409, .ErrorResponse (go "user already exists")) },
        [examples.john]) ∧
    ∀ log : List handler.Call,
      handler.Register (fun _ => .ok examples.registration)
          (handler.tracedHash examples.hashPassword) examples.server.traced
          examples.authContext ([examples.john], log) =
        (none,
          { examples.authContext with
            response := some (409, .ErrorResponse (go "user already exists")) },
          ([examples.john],
            log ++ [.IsExistUser { PhoneNumber := examples.registration.PhoneNumber }])) :=
  C13_register_conflict (fun _ => .ok examples.registration) examples.hashPassword
    examples.server examples.authContext [examples.john] [examples.john]
    examples.registration rfl (by decide) (by decide)


/-- C14: for a login request with non-empty phone number and password for which
`GetUserByPhoneNumber` succeeds and `ComparePassword` returns an error,
whichever it is, `Login` answers with status 401 and the message `wrong
password`, and its only calls are the lookup and the comparison: neither
`UpdateUserLoginSuccess` nor `SignJWT` is called. -/
theorem C14_login_wrong_password {σ : Type}
    (Bind : echo.Context → Except GoError generated.LoginJSONRequestBody)
    (s : handler.Server σ) (ctx : echo.Context) (w w1 w2 : σ)
    (request : generated.LoginJSONRequestBody) (user : entities.User) (err : GoError)
    (hbind : Bind ctx = .ok request)
    (hphone : request.PhoneNumber ≠ []) (hpassword : request.Password ≠ [])
    (hget : s.Repository.GetUserByPhoneNumber request.PhoneNumber w = ((user, none), w1))
    (hcompare : s.PasswordComparer.ComparePassword request.Password user.Password w1
      = (some err, w2)) :
    handler.Login Bind s ctx w =
      (none, { ctx with response := some (401, .ErrorResponse (go "wrong password")) }, w2) ∧
    ∀ log : List handler.Call,
      handler.Login Bind s.traced ctx (w, log) =
        (none, { ctx with response := some (401, .ErrorResponse (go "wrong password")) },
          (w2, log ++ [.GetUserByPhoneNumber request.PhoneNumber,
            .ComparePassword [request.Password, user.Password]])) := by
  refine ⟨handler.login_wrong_password Bind s ctx w w1 w2 request user err hbind hphone
    hpassword hget hcompare, fun log => ?_⟩
  rw [handler.login_wrong_password Bind s.traced ctx (w, log)
    (w1, log ++ [.GetUserByPhoneNumber request.PhoneNumber])
    (w2, log ++ [.GetUserByPhoneNumber request.PhoneNumber] ++
      [.ComparePassword [request.Password, user.Password]])
    request user err hbind hphone hpassword
    (by simp [handler.Server.traced, handler.logged, hget])
    (by simp [handler.Server.traced, handler.logged, hcompare])]
  simp

/-- Witness of C14: John logs in with the password `Password123?`. -/
theorem C14_login_wrong_password_witness :
    handler.Login
        (fun _ => .ok { examples.login with Password := go "Password123?" })
        examples.server examples.authContext [examples.john] =
      (none,
        { examples.authContext with
          response := some (401, .ErrorResponse (go "wrong password")) },
        [examples.john]) ∧
    ∀ log : List handler.Call,
      handler.Login
          (fun _ => .ok { examples.login with Password := go "Password123?" })
          examples.server.traced examples.authContext ([examples.john], log) =
        (none,
          { examples.authContext with
            response := some (401, .ErrorResponse (go "wrong password")) },
          ([examples.john], log ++ [.GetUserByPhoneNumber (go "+628123456789"),
            .ComparePassword [go "Password123?", examples.john.Password]])) :=
  C14_login_wrong_password
    (fun _ => .ok { examples.login with Password := go "Password123?" })
    examples.server examples.authContext [examples.john] [examples.john] [examples.john]
    { examples.login with Password := go "Password123?" } examples.john
    bcrypt.ErrMismatchedHashAndPassword rfl (by decide) (by decide) (by decide) (by decide)

/-- The run of `Login`, with the log of its calls, on a request with non-empty
phone number and password whose phone number is found: the comparison receives
the request password and the stored password of the user found, and nothing
else; on a failed comparison nothing is called after it; on a failed update the
signer is not called. -/
theorem handler.login_found_traced {σ : Type}
    (Bind : echo.Context → Except GoError generated.LoginJSONRequestBody)
    (s : handler.Server σ) (ctx : echo.Context) (w w1 : σ)
    (request : generated.LoginJSONRequestBody) (u : entities.User)
    (hbind : Bind ctx = .ok request)
    (hphone : request.PhoneNumber ≠ []) (hpassword : request.Password ≠ [])
    (hget : s.Repository.GetUserByPhoneNumber request.PhoneNumber w = ((u, none), w1))
    (log : List handler.Call) :
    handler.Login Bind s.traced ctx (w, log) =
      match s.PasswordComparer.ComparePassword request.Password u.Password w1 with
      | (some _, w2) =>
        (none, { ctx with response := some (401, .ErrorResponse (go "wrong password")) },
          (w2, log ++ [.GetUserByPhoneNumber request.PhoneNumber,
            .ComparePassword [request.Password, u.Password]]))
      | (none, w2) =>
        match s.Repository.UpdateUserLoginSuccess u w2 with
        | (some err, w3) =>
          (none, { ctx with response := some (handler.errorCode err, .ErrorResponse err.Error) },
            (w3, log ++ [.GetUserByPhoneNumber request.PhoneNumber,
              .ComparePassword [request.Password, u.Password],
              .UpdateUserLoginSuccess u]))
        | (none, w3) =>
          match s.JWTClaim.SignJWT u w3 with
          | ((_, some err), w4) =>
            (none,
              { ctx with response := some (handler.errorCode err, .ErrorResponse err.Error) },
              (w4, log ++ [.GetUserByPhoneNumber request.PhoneNumber,
                .ComparePassword [request.Password, u.Password],
                .UpdateUserLoginSuccess u, .SignJWT u]))
          | ((token, none), w4) =>
            (none, { ctx with response := some (200, .UserLoginResponse token u.ID) },
              (w4, log ++ [.GetUserByPhoneNumber request.PhoneNumber,
                .ComparePassword [request.Password, u.Password],
                .UpdateUserLoginSuccess u, .SignJWT u])) := by
  have hget' : s.traced.Repository.GetUserByPhoneNumber request.PhoneNumber (w, log) =
      ((u, none), (w1, log ++ [.GetUserByPhoneNumber request.PhoneNumber])) := by
    simp [handler.Server.traced, handler.logged, hget]
  rcases hcompare : s.PasswordComparer.ComparePassword request.Password u.Password w1 with
    ⟨r, w2⟩
  cases r with
  | some err =>
    rw [handler.login_wrong_password Bind s.traced ctx (w, log)
      (w1, log ++ [.GetUserByPhoneNumber request.PhoneNumber])
      (w2, log ++ [.GetUserByPhoneNumber request.PhoneNumber] ++
        [.ComparePassword [request.Password, u.Password]])
      request u err hbind hphone hpassword hget'
      (by simp [handler.Server.traced, handler.logged, hcompare])]
    simp
  | none =>
    rw [handler.login_compared Bind s.traced ctx (w, log)
      (w1, log ++ [.GetUserByPhoneNumber request.PhoneNumber])
      (w2, log ++ [.GetUserByPhoneNumber request.PhoneNumber] ++
        [.ComparePassword [request.Password, u.Password]])
      request u hbind hphone hpassword hget'
      (by simp [handler.Server.traced, handler.logged, hcompare])]
    rcases hupdate : s.Repository.UpdateUserLoginSuccess u w2 with ⟨updated, w3⟩
    cases updated with
    | some err => simp [handler.Server.traced, handler.logged, hupdate]
    | none =>
      rcases hsign : s.JWTClaim.SignJWT u w3 with ⟨⟨token, signed⟩, w4⟩
      cases signed <;> simp [handler.Server.traced, handler.logged, hupdate, hsign]

/-- C15, the failing input: on the login request of the tests (phone number
`+628123456789`, password `Password123!`) for the registered user John, `Login`
answers 200 with the token of the signer and the id of John after the calls
`GetUserByPhoneNumber`, `ComparePassword`, `UpdateUserLoginSuccess`, `SignJWT`,
and `ComparePassword` receives two arguments, the request password and the
stored hash: no call carries a salt (a user has none).  The same holds for every
server and every request with non-empty phone number and password whose phone
number is found: the comparison receives these two arguments; the signer is
called only after the comparison and the update have both returned nil, and
then the answer is 200 with the token it returns and the id of the user. -/
theorem C15_login_compares_without_salt :
    handler.Login (fun _ => .ok examples.login) examples.server.traced examples.authContext
        ([examples.john], []) =
      (none,
        { examples.authContext with
          response := some (200, .UserLoginResponse (go "token") 1) },
        ([examples.john],
          [.GetUserByPhoneNumber (go "+628123456789"),
            .ComparePassword [go "Password123!", go "$2a$10$Password123!"],
            .UpdateUserLoginSuccess examples.john,
            .SignJWT examples.john])) ∧
    (∀ salt : GoString,
      handler.Call.ComparePassword [go "Password123!", go "$2a$10$Password123!", salt] ∉
        (handler.Login (fun _ => .ok examples.login) examples.server.traced
          examples.authContext ([examples.john], [])).2.2.2) ∧
    (∀ (σ : Type) (Bind : echo.Context → Except GoError generated.LoginJSONRequestBody)
      (s : handler.Server σ) (ctx : echo.Context) (w w1 : σ)
      (request : generated.LoginJSONRequestBody) (u : entities.User) (log : List handler.Call),
      Bind ctx = .ok request →
      request.PhoneNumber ≠ [] → request.Password ≠ [] →
      s.Repository.GetUserByPhoneNumber request.PhoneNumber w = ((u, none), w1) →
      handler.Login Bind s.traced ctx (w, log) =
        match s.PasswordComparer.ComparePassword request.Password u.Password w1 with
        | (some _, w2) =>
          (none, { ctx with response := some (401, .ErrorResponse (go "wrong password")) },
            (w2, log ++ [.GetUserByPhoneNumber request.PhoneNumber,
              .ComparePassword [request.Password, u.Password]]))
        | (none, w2) =>
          match s.Repository.UpdateUserLoginSuccess u w2 with
          | (some err, w3) =>
            (none,
              { ctx with response := some (handler.errorCode err, .ErrorResponse err.Error) },
              (w3, log ++ [.GetUserByPhoneNumber request.PhoneNumber,
                .ComparePassword [request.Password, u.Password],
                .UpdateUserLoginSuccess u]))
          | (none, w3) =>
            match s.JWTClaim.SignJWT u w3 with
            | ((_, some err), w4) =>
              (none,
                { ctx with response := some (handler.errorCode err, .ErrorResponse err.Error) },
                (w4, log ++ [.GetUserByPhoneNumber request.PhoneNumber,
                  .ComparePassword [request.Password, u.Password],
                  .UpdateUserLoginSuccess u, .SignJWT u]))
            | ((token, none), w4) =>
              (none, { ctx with response := some (200, .UserLoginResponse token u.ID) },
                (w4, log ++ [.GetUserByPhoneNumber request.PhoneNumber,
                  .ComparePassword [request.Password, u.Password],
                  .UpdateUserLoginSuccess u, .SignJWT u]))) := by
  have hrun : handler.Login (fun _ => .ok examples.login) examples.server.traced
      examples.authContext ([examples.john], []) =
      (none,
        { examples.authContext with
          response := some (200, .UserLoginResponse (go "token") 1) },
        ([examples.john],
          [.GetUserByPhoneNumber (go "+628123456789"),
            .ComparePassword [go "Password123!", go "$2a$10$Password123!"],
            .UpdateUserLoginSuccess examples.john,
            .SignJWT examples.john])) := by decide
  refine ⟨hrun, ?_, ?_⟩
  · intro salt
    rw [hrun]
    simp
  · intro σ Bind s ctx w w1 request u log hbind hphone hpassword hget
    exact handler.login_found_traced Bind s ctx w w1 request u hbind hphone hpassword hget log

theorem hex.length_encodeToString (src : List UInt8) :
    (hex.EncodeToString src).length = 2 * src.length := by
  induction src with
  | nil => rfl
  | cons b rest ih =>
    simp only [hex.EncodeToString, List.flatMap_cons, List.length_append, List.length_cons,
      List.length_nil] at ih ⊢
    omega

theorem internal.generateSalt_length
    (rand : Except GoError { b : List UInt8 // b.length = 16 }) (salt : GoString)
    (h : internal.GenerateSalt rand = (salt, none)) : salt.length = 32 := by
  unfold internal.GenerateSalt at h
  cases rand with
  | error e => simp at h
  | ok bytes =>
    simp only [Prod.mk.injEq, and_true] at h
    rw [← h, hex.length_encodeToString, bytes.2]

theorem bcrypt.modelLib_rejectsTooLong : bcrypt.modelLib.RejectsTooLong := by
  intro password cost entropy h
  simp [bcrypt.modelLib, h]

/-- C20, the failing input: the password `password41` of 41 bytes passes
`validateRegistrationRequest`, the salt of thirty-two `a` is what `GenerateSalt`
returns for sixteen bytes `0xaa`, and the combined input has 73 bytes; with
every bcrypt that refuses more than 72 bytes `HashPassword` fails on it with
`ErrPasswordTooLong`.  In general a salt of `GenerateSalt` has 32 bytes, so
`HashPassword` fails for every password of more than 40 bytes, and the rules
admit passwords of up to 64 bytes, such as `password64`. -/
theorem C20_valid_password_exceeds_bcrypt_limit :
    handler.validateRegistrationRequest
        { examples.registration with Password := examples.password41 } = none ∧
    internal.GenerateSalt (.ok ⟨List.replicate 16 0xaa, rfl⟩) = (examples.salt, none) ∧
    (examples.password41 ++ examples.salt).length = 73 ∧
    (∀ lib : bcrypt.Lib, lib.RejectsTooLong → ∀ entropy : GoString,
      internal.HashPassword lib entropy examples.password41 examples.salt =
        ([], some bcrypt.ErrPasswordTooLong)) ∧
    (∀ (rand : Except GoError { b : List UInt8 // b.length = 16 }) (salt P : GoString),
      internal.GenerateSalt rand = (salt, none) →
      (P ++ salt).length = P.length + 32 ∧
      (40 < P.length → ∀ lib : bcrypt.Lib, lib.RejectsTooLong → ∀ entropy : GoString,
        internal.HashPassword lib entropy P salt = ([], some bcrypt.ErrPasswordTooLong))) ∧
    handler.validateRegistrationRequest
        { examples.registration with Password := examples.password64 } = none ∧
    examples.password64.length = 64 ∧
    bcrypt.modelLib.RejectsTooLong := by
  have hfail : ∀ (P salt : GoString), 72 < (P ++ salt).length →
      ∀ lib : bcrypt.Lib, lib.RejectsTooLong → ∀ entropy : GoString,
        internal.HashPassword lib entropy P salt = ([], some bcrypt.ErrPasswordTooLong) := by
    intro P salt hlen lib hlib entropy
    unfold internal.HashPassword
    simp only [hlib (P ++ salt) bcrypt.DefaultCost entropy hlen]
  refine ⟨by decide, rfl, by decide, hfail _ _ (by decide), ?_, by decide, by decide,
    bcrypt.modelLib_rejectsTooLong⟩
  intro rand salt P hsalt
  have h32 := internal.generateSalt_length rand salt hsalt
  refine ⟨by rw [List.length_append, h32], fun hP => hfail P salt ?_⟩
  rw [List.length_append, h32]
  omega


/-! ## The last branch of the verifier, and the signed claims -/

theorem jwt.modelLib_validOnSuccess : jwt.modelLib.ValidOnSuccess := by
  intro tokenString publicKey now token h
  simp only [jwt.modelLib] at h
  split at h
  · split at h
    · split at h
      · cases h
        exact ⟨rfl, by simp⟩
      · cases h
    · cases h
  · cases h

/-- The two ways in which `VerifyJWT` returns a nil error. -/
theorem internal.verifyJWT_nil_error (lib : jwt.Lib) (now : time.Time)
    (tokenString : GoString) (publicKey : Option rsa.PublicKey) (claims : internal.JWTClaim)
    (h : internal.JWTClaim.VerifyJWT lib now tokenString publicKey = (claims, none)) :
    lib.ParseWithClaims tokenString publicKey now = .ok ⟨some claims, true⟩ ∨
    (claims = {} ∧ ∃ token : jwt.Token,
      lib.ParseWithClaims tokenString publicKey now = .ok token ∧
      (token.Valid = false ∨ token.Claims = none)) := by
  unfold internal.JWTClaim.VerifyJWT at h
  cases hp : lib.ParseWithClaims tokenString publicKey now with
  | error e => simp [hp] at h
  | ok token =>
    obtain ⟨tc, tv⟩ := token
    cases tc with
    | none =>
      simp only [hp, Prod.mk.injEq, and_true] at h
      exact Or.inr ⟨h.symm, _, rfl, Or.inr rfl⟩
    | some c =>
      cases tv with
      | false =>
        simp only [hp, Prod.mk.injEq, and_true] at h
        exact Or.inr ⟨h.symm, _, rfl, Or.inl rfl⟩
      | true =>
        simp only [hp, Prod.mk.injEq, and_true] at h
        exact Or.inl (by rw [h])

/-- C21: with a token library that returns a nil error for valid tokens only
(as golang-jwt does), for every token string and public key: whenever
`VerifyJWT` returns a nil error, the claims it returns are the claims decoded
from a token that parsed as valid; no parse without error reaches the branch for
claims of the wrong type or `token.Valid` false; and the zero-value `JWTClaim`
of the other branches is returned only together with the error of the parse. -/
theorem C21_verify_nil_error_only_with_valid_claims (lib : jwt.Lib)
    (hlib : lib.ValidOnSuccess) :
    (∀ (now : time.Time) (tokenString : GoString) (publicKey : Option rsa.PublicKey)
      (claims : internal.JWTClaim),
      internal.JWTClaim.VerifyJWT lib now tokenString publicKey = (claims, none) →
      lib.ParseWithClaims tokenString publicKey now = .ok ⟨some claims, true⟩) ∧
    (∀ (now : time.Time) (tokenString : GoString) (publicKey : Option rsa.PublicKey)
      (token : jwt.Token),
      lib.ParseWithClaims tokenString publicKey now = .ok token →
      ¬ (token.Valid = false ∨ token.Claims = none)) ∧
    (∀ (now : time.Time) (tokenString : GoString) (publicKey : Option rsa.PublicKey),
      (∃ err, lib.ParseWithClaims tokenString publicKey now = .error err ∧
        internal.JWTClaim.VerifyJWT lib now tokenString publicKey = ({}, some err)) ∨
      (∃ claims, lib.ParseWithClaims tokenString publicKey now = .ok ⟨some claims, true⟩ ∧
        internal.JWTClaim.VerifyJWT lib now tokenString publicKey = (claims, none))) := by
  have hnever : ∀ (now : time.Time) (tokenString : GoString)
      (publicKey : Option rsa.PublicKey) (token : jwt.Token),
      lib.ParseWithClaims tokenString publicKey now = .ok token →
      ¬ (token.Valid = false ∨ token.Claims = none) := by
    intro now tokenString publicKey token hp hbad
    obtain ⟨hv, hc⟩ := hlib _ _ _ _ hp
    rcases hbad with hf | hn
    · rw [hv] at hf
      cases hf
    · exact hc hn
  refine ⟨?_, hnever, ?_⟩
  · intro now tokenString publicKey claims h
    rcases internal.verifyJWT_nil_error lib now tokenString publicKey claims h with hok | hbad
    · exact hok
    · obtain ⟨-, token, hp, hflag⟩ := hbad
      exact absurd hflag (hnever _ _ _ _ hp)
  · intro now tokenString publicKey
    cases hp : lib.ParseWithClaims tokenString publicKey now with
    | error err =>
      exact Or.inl ⟨err, rfl, by simp [internal.JWTClaim.VerifyJWT, hp]⟩
    | ok token =>
      obtain ⟨hv, hc⟩ := hlib _ _ _ _ hp
      obtain ⟨tc, tv⟩ := token
      simp only at hv hc
      subst hv
      cases tc with
      | none => exact absurd rfl hc
      | some c => exact Or.inr ⟨c, rfl, by simp [internal.JWTClaim.VerifyJWT, hp]⟩

/-- Witness of C21: the library `jwt.modelLib`, which flags every token it
parses without error as valid; without a public key it rejects the token `abc`
and `VerifyJWT` returns the zero value with that error. -/
theorem C21_verify_nil_error_only_with_valid_claims_witness :
    ((∀ (now : time.Time) (tokenString : GoString) (publicKey : Option rsa.PublicKey)
        (claims : internal.JWTClaim),
        internal.JWTClaim.VerifyJWT jwt.modelLib now tokenString publicKey = (claims, none) →
        jwt.modelLib.ParseWithClaims tokenString publicKey now = .ok ⟨some claims, true⟩) ∧
      (∀ (now : time.Time) (tokenString : GoString) (publicKey : Option rsa.PublicKey)
        (token : jwt.Token),
        jwt.modelLib.ParseWithClaims tokenString publicKey now = .ok token →
        ¬ (token.Valid = false ∨ token.Claims = none)) ∧
      (∀ (now : time.Time) (tokenString : GoString) (publicKey : Option rsa.PublicKey),
        (∃ err, jwt.modelLib.ParseWithClaims tokenString publicKey now = .error err ∧
          internal.JWTClaim.VerifyJWT jwt.modelLib now tokenString publicKey =
            ({}, some err)) ∨
        (∃ claims,
          jwt.modelLib.ParseWithClaims tokenString publicKey now = .ok ⟨some claims, true⟩ ∧
          internal.JWTClaim.VerifyJWT jwt.modelLib now tokenString publicKey =
            (claims, none)))) ∧
    internal.JWTClaim.VerifyJWT jwt.modelLib 0 (go "abc") none =
      ({}, some (.plain (go "token contains an invalid number of segments"))) :=
  ⟨C21_verify_nil_error_only_with_valid_claims jwt.modelLib jwt.modelLib_validOnSuccess, rfl⟩

/-- C22: the claims that `SignJWT` hands to the signature depend on the user and
the clock only, not on the signer: their `PrivateKey` is nil, their `UserID` is
the id of the user, their `ExpiresAt` is the expiry and every other standard
claim is empty; the key of the signer is used as the signing key and nowhere
else. -/
theorem C22_signing_key_not_in_claims (lib : jwt.Lib) (now : time.Time)
    (u : entities.User) :
    ∃ claims : internal.JWTClaim,
      claims.PrivateKey = none ∧
      claims = { UserID := u.ID, StandardClaims := { ExpiresAt := time.Time.Unix now + 86400 } } ∧
      ∀ j : internal.JWTClaim,
        internal.JWTClaim.SignJWT lib now j u =
          match lib.SignedString claims j.PrivateKey with
          | .error err => ([], some err)
          | .ok tokenString => (tokenString, none) := by
  refine ⟨internal.JWTClaim.signClaims now u, rfl, ?_, fun j => rfl⟩
  simp only [internal.JWTClaim.signClaims, time.unix_add_24h]


/-! ## User lookups and the login of an unregistered phone number -/

/-- The run of `Login` when the lookup returns an error. -/
theorem handler.login_lookup_failed {σ : Type}
    (Bind : echo.Context → Except GoError generated.LoginJSONRequestBody)
    (s : handler.Server σ) (ctx : echo.Context) (w w1 : σ)
    (request : generated.LoginJSONRequestBody) (user : entities.User) (err : GoError)
    (hbind : Bind ctx = .ok request)
    (hphone : request.PhoneNumber ≠ []) (hpassword : request.Password ≠ [])
    (hget : s.Repository.GetUserByPhoneNumber request.PhoneNumber w = ((user, some err), w1)) :
    handler.Login Bind s ctx w =
      (none, { ctx with response := some (handler.errorCode err, .ErrorResponse err.Error) },
        w1) := by
  unfold handler.Login
  simp only [hbind, handler.validateLoginRequest_nonempty request hphone hpassword, hget]
  rfl

/-- C10, amended: when the scan of the lookup returns `sql.ErrNoRows`,
`GetUserByID` returns the zero user and a `ForbiddenError` (status 403) and
`GetUserByPhoneNumber` returns the zero user and a `BadRequestError` (status
400), both with the message `user not registered`; `handleError` answers the
latter with status 400 and that message; and a `Login` with non-empty phone
number and password whose repository answers the phone lookup in this way
responds with status 400 and the message `user not registered`, and calls
nothing after the lookup.  When the scan fails with another error,
`GetUserByPhoneNumber` returns an `InternalServerError` (status 500). -/
theorem C10_no_row_errors (Db : sql.DB) (phoneNumber : GoString) (id : Int) :
    (Db.QueryRowScanUser repository.getUserByIDQuery [.int id] = .ErrNoRows →
      repository.GetUserByID Db id =
        ({}, some (.ForbiddenError (go "user not registered"))) ∧
      handler.errorCode (.ForbiddenError (go "user not registered")) = 403) ∧
    (Db.QueryRowScanUser repository.getUserByPhoneNumberQuery [.string phoneNumber]
        = .ErrNoRows →
      repository.GetUserByPhoneNumber Db phoneNumber =
        ({}, some (.BadRequestError (go "user not registered"))) ∧
      handler.errorCode (.BadRequestError (go "user not registered")) = 400 ∧
      ∀ c : echo.Context,
        handler.handleError c (.BadRequestError (go "user not registered")) =
          (none, { c with
            response := some (400, .ErrorResponse (go "user not registered")) })) ∧
    (Db.QueryRowScanUser repository.getUserByPhoneNumberQuery [.string phoneNumber]
        = .ErrNoRows →
      ∀ (σ : Type) (Bind : echo.Context → Except GoError generated.LoginJSONRequestBody)
        (s : handler.Server σ) (ctx : echo.Context) (w w1 : σ)
        (request : generated.LoginJSONRequestBody),
        Bind ctx = .ok request → request.PhoneNumber = phoneNumber →
        request.PhoneNumber ≠ [] → request.Password ≠ [] →
        s.Repository.GetUserByPhoneNumber request.PhoneNumber w =
          (repository.GetUserByPhoneNumber Db request.PhoneNumber, w1) →
        handler.Login Bind s ctx w =
          (none,
            { ctx with response := some (400, .ErrorResponse (go "user not registered")) },
            w1) ∧
        ∀ log : List handler.Call,
          handler.Login Bind s.traced ctx (w, log) =
            (none,
              { ctx with response := some (400, .ErrorResponse (go "user not registered")) },
              (w1, log ++ [.GetUserByPhoneNumber request.PhoneNumber]))) ∧
    (∀ (err : GoError) (dest : entities.User),
      Db.QueryRowScanUser repository.getUserByPhoneNumberQuery [.string phoneNumber]
        = .failed err dest →
      repository.GetUserByPhoneNumber Db phoneNumber =
        (dest, some (.InternalServerError
          (go "failed to get user by phone number: " ++ err.Error))) ∧
      handler.errorCode (.InternalServerError
        (go "failed to get user by phone number: " ++ err.Error)) = 500) := by
  refine ⟨?_, ?_, ?_, ?_⟩
  rotate_left 3
  · intro err dest h
    exact ⟨by simp [repository.GetUserByPhoneNumber, h], rfl⟩
  · intro h
    exact ⟨by simp [repository.GetUserByID, h], rfl⟩
  · intro h
    exact ⟨by simp [repository.GetUserByPhoneNumber, h], rfl, fun c => rfl⟩
  · intro h σ Bind s ctx w w1 request hbind hreq hphone hpassword hget
    subst hreq
    have hlookup : repository.GetUserByPhoneNumber Db request.PhoneNumber =
        ({}, some (.BadRequestError (go "user not registered"))) := by
      simp [repository.GetUserByPhoneNumber, h]
    rw [hlookup] at hget
    refine ⟨handler.login_lookup_failed Bind s ctx w w1 request _ _ hbind hphone hpassword
      hget, fun log => ?_⟩
    exact handler.login_lookup_failed Bind s.traced ctx (w, log)
      (w1, log ++ [.GetUserByPhoneNumber request.PhoneNumber]) request {}
      (.BadRequestError (go "user not registered")) hbind hphone hpassword
      (by simp [handler.Server.traced, handler.logged, hget])

/-- Witness of C10 (amended): both lookups on a users table without rows, and
the login of the tests on the server whose phone lookup reads that table. -/
theorem C10_no_row_errors_witness :
    repository.GetUserByID examples.emptyDB 7 =
      ({}, some (.ForbiddenError (go "user not registered"))) ∧
    handler.errorCode (.ForbiddenError (go "user not registered")) = 403 ∧
    repository.GetUserByPhoneNumber examples.emptyDB (go "+628123456789") =
      ({}, some (.BadRequestError (go "user not registered"))) ∧
    handler.errorCode (.BadRequestError (go "user not registered")) = 400 ∧
    handler.Login (fun _ => .ok examples.login) examples.emptyServer examples.authContext [] =
      (none,
        { examples.authContext with
          response := some (400, .ErrorResponse (go "user not registered")) },
        []) ∧
    ∀ log : List handler.Call,
      handler.Login (fun _ => .ok examples.login) examples.emptyServer.traced
          examples.authContext ([], log) =
        (none,
          { examples.authContext with
            response := some (400, .ErrorResponse (go "user not registered")) },
          ([], log ++ [.GetUserByPhoneNumber examples.login.PhoneNumber])) :=
  ⟨((C10_no_row_errors examples.emptyDB (go "+628123456789") 7).1 rfl).1,
    ((C10_no_row_errors examples.emptyDB (go "+628123456789") 7).1 rfl).2,
    ((C10_no_row_errors examples.emptyDB (go "+628123456789") 7).2.1 rfl).1,
    ((C10_no_row_errors examples.emptyDB (go "+628123456789") 7).2.1 rfl).2.1,
    ((C10_no_row_errors examples.emptyDB (go "+628123456789") 7).2.2.1 rfl
      (List entities.User) (fun _ => .ok examples.login) examples.emptyServer
      examples.authContext [] [] examples.login rfl rfl (by decide) (by decide) rfl).1,
    ((C10_no_row_errors examples.emptyDB (go "+628123456789") 7).2.2.1 rfl
      (List entities.User) (fun _ => .ok examples.login) examples.emptyServer
      examples.authContext [] [] examples.login rfl rfl (by decide) (by decide) rfl).2⟩

end SawitPro
